import Mathlib

/-!
Shallow embedding of the Janus NoSIP plugin (src/src/plugins/janus_nosip.c)
and verification of properties of its session-description processing, SRTP
policy installation, port-pair allocation, request handler and RTP relay
entry points.

Modelling conventions:
* C machine integers that the code uses as ports, lengths and ids are
  modelled as `Nat`; signed quantities (payload types, file descriptors,
  tags) as `Int`.
* External library calls (jansson, glib, libsrtp, the SDP parser) are
  modelled by their observable outcome, carried as fields of the request
  or as oracle parameters; every branch the C code takes on those outcomes
  is reproduced.
* Pointers that the code checks for NULL are modelled with `Option`.
-/

namespace NoSip

/-- ASCII lower-casing of one character, as C `tolower` does in the
default locale. -/
def charLower (c : Char) : Char :=
  if 65 ≤ c.toNat ∧ c.toNat ≤ 90 then Char.ofNat (c.toNat + 32) else c

/-- Case-insensitive string equality, the model of `strcasecmp(a,b) == 0`. -/
def strcaseEq (a b : String) : Bool :=
  a.data.map charLower == b.data.map charLower

/-! ## Error codes (janus_nosip.c lines 681-692) -/

def JANUS_NOSIP_ERROR_UNKNOWN_ERROR : Nat := 499
def JANUS_NOSIP_ERROR_NO_MESSAGE : Nat := 440
def JANUS_NOSIP_ERROR_INVALID_JSON : Nat := 441
def JANUS_NOSIP_ERROR_INVALID_REQUEST : Nat := 442
def JANUS_NOSIP_ERROR_MISSING_ELEMENT : Nat := 443
def JANUS_NOSIP_ERROR_INVALID_ELEMENT : Nat := 444
def JANUS_NOSIP_ERROR_WRONG_STATE : Nat := 445
def JANUS_NOSIP_ERROR_MISSING_SDP : Nat := 446
def JANUS_NOSIP_ERROR_INVALID_SDP : Nat := 447
def JANUS_NOSIP_ERROR_IO_ERROR : Nat := 448
def JANUS_NOSIP_ERROR_RECORDING_ERROR : Nat := 449
def JANUS_NOSIP_ERROR_TOO_STRICT : Nat := 450

/-! ## SRTP profiles and policies -/

/-- The `janus_srtp_profile` enum (0 is the unset value the session starts
with, `srtp_profile = 0` in `janus_nosip_create_session`). -/
inductive SrtpProfile where
  | unset
  | aes128_cm_sha1_32
  | aes128_cm_sha1_80
  | aead_aes_128_gcm
  | aead_aes_256_gcm
  deriving Repr, DecidableEq

/-- The libsrtp crypto-policy setters the plugin calls
(`srtp_crypto_policy_set_*`); each value names one setter. -/
inductive SrtpCrypto where
  | aes_cm_128_hmac_sha1_32
  | aes_cm_128_hmac_sha1_80
  | aes_gcm_128_16_auth
  | aes_gcm_256_16_auth
  deriving Repr, DecidableEq

/-- The switch on `session->media.srtp_profile` that fills
`policy->rtp` and `policy->rtcp`; it appears verbatim twice, in
`janus_nosip_srtp_set_local` (lines 465-488) and in
`janus_nosip_srtp_set_remote` (lines 554-577). `none` is the `default`
branch, which sets no crypto policy. We assume `HAVE_SRTP_AESGCM` is
defined, as the spec documents the GCM profiles. -/
def janus_nosip_srtp_policy : SrtpProfile → Option (SrtpCrypto × SrtpCrypto)
  | .aes128_cm_sha1_32 => some (.aes_cm_128_hmac_sha1_32, .aes_cm_128_hmac_sha1_80)
  | .aes128_cm_sha1_80 => some (.aes_cm_128_hmac_sha1_80, .aes_cm_128_hmac_sha1_80)
  | .aead_aes_128_gcm => some (.aes_gcm_128_16_auth, .aes_gcm_128_16_auth)
  | .aead_aes_256_gcm => some (.aes_gcm_256_16_auth, .aes_gcm_256_16_auth)
  | .unset => none

/-- Master key+salt length per profile: `SRTP_MASTER_LENGTH = 30`,
`SRTP_AESGCM128_MASTER_LENGTH = 28`, `SRTP_AESGCM256_MASTER_LENGTH = 44`
(janus rtp.h); 0 for the unset profile (never used). -/
def srtpMasterLength : SrtpProfile → Nat
  | .aes128_cm_sha1_32 => 30
  | .aes128_cm_sha1_80 => 30
  | .aead_aes_128_gcm => 28
  | .aead_aes_256_gcm => 44
  | .unset => 0

/-! ## Session media state (the `media` member of `janus_nosip_session`) -/

/-- The per-session media state, with the initial values assigned by
`janus_nosip_create_session` (lines 952-1010) as defaults.  SRTP sessions
(`audio_srtp_in` etc.) are modelled by whether they are non-NULL; the
installed `srtp_policy_t` is modelled by the pair of crypto policies the
profile switch wrote into it (`none` = nothing installed); the local
crypto string by the byte length of its base64-decoded payload. -/
structure MediaState where
  remote_audio_ip : Option String := none
  remote_video_ip : Option String := none
  ready : Bool := false
  require_srtp : Bool := false
  has_srtp_local : Bool := false
  has_srtp_remote : Bool := false
  srtp_profile : SrtpProfile := .unset
  audio_srtp_local_profile : Option String := none
  audio_srtp_local_crypto : Option Nat := none
  video_srtp_local_profile : Option String := none
  video_srtp_local_crypto : Option Nat := none
  has_audio : Bool := false
  audio_rtp_fd : Int := -1
  audio_rtcp_fd : Int := -1
  local_audio_rtp_port : Nat := 0
  local_audio_rtcp_port : Nat := 0
  remote_audio_rtp_port : Nat := 0
  remote_audio_rtcp_port : Nat := 0
  audio_ssrc : Nat := 0
  audio_ssrc_peer : Nat := 0
  audio_pt : Int := -1
  opusred_pt : Int := -1
  audio_pt_name : Option String := none
  audio_send : Bool := true
  has_video : Bool := false
  video_rtp_fd : Int := -1
  video_rtcp_fd : Int := -1
  local_video_rtp_port : Nat := 0
  local_video_rtcp_port : Nat := 0
  remote_video_rtp_port : Nat := 0
  remote_video_rtcp_port : Nat := 0
  video_ssrc : Nat := 0
  video_ssrc_peer : Nat := 0
  simulcast_ssrc : Nat := 0
  video_pt : Int := -1
  video_pt_name : Option String := none
  video_send : Bool := true
  video_pli_supported : Bool := false
  video_orientation_extension_id : Int := -1
  audio_level_extension_id : Int := -1
  updated : Bool := false
  pipefd0 : Int := -1
  pipefd1 : Int := -1
  audio_srtp_tag : Int := 0
  video_srtp_tag : Int := 0
  audio_srtp_in : Bool := false
  video_srtp_in : Bool := false
  audio_srtp_out : Bool := false
  video_srtp_out : Bool := false
  audio_remote_policy : Option (SrtpCrypto × SrtpCrypto) := none
  video_remote_policy : Option (SrtpCrypto × SrtpCrypto) := none
  audio_local_policy : Option (SrtpCrypto × SrtpCrypto) := none
  video_local_policy : Option (SrtpCrypto × SrtpCrypto) := none
  deriving Repr, DecidableEq

/-! ## SRTP context install (janus_nosip_srtp_set_local / _set_remote) -/

/-- Maps the profile string of an `a=crypto` line to the internal enum and
its master length, the `strcasecmp` chain of `janus_nosip_srtp_set_remote`
(lines 516-541); `none` is the trailing `else` (unsupported profile). -/
def srtpProfileOfString (profile : String) : Option SrtpProfile :=
  if strcaseEq profile "AES_CM_128_HMAC_SHA1_32" then some .aes128_cm_sha1_32
  else if strcaseEq profile "AES_CM_128_HMAC_SHA1_80" then some .aes128_cm_sha1_80
  else if strcaseEq profile "AEAD_AES_128_GCM" then some .aead_aes_128_gcm
  else if strcaseEq profile "AEAD_AES_256_GCM" then some .aead_aes_256_gcm
  else none

/-- The `janus_nosip_srtp_set_remote` function (lines 510-594).
`cryptoLen` is the length `g_base64_decode` reports for the inline key
(base64 decoding itself is a glib call; the code only inspects the length).
`srtp_create` is an external libsrtp call modelled as succeeding.
Returns the C return code and the mutated state.  Note that
`session->media.srtp_profile` is assigned inside the profile-string chain,
before the length check, so a `-3` failure still leaves it updated. -/
def janus_nosip_srtp_set_remote (m : MediaState) (video : Bool)
    (profile : String) (cryptoLen : Nat) : Int × MediaState :=
  match srtpProfileOfString profile with
  | none => (-2, m)
  | some p =>
    let m := { m with srtp_profile := p }
    if cryptoLen < srtpMasterLength p then
      (-3, m)
    else
      let pol := janus_nosip_srtp_policy p
      let m :=
        if video then
          { m with video_remote_policy := pol, video_srtp_in := true }
        else
          { m with audio_remote_policy := pol, audio_srtp_in := true }
      (0, m)

/-- The `janus_nosip_srtp_set_local` function (lines 426-509).  The key is
random bytes of the profile's master length; the out-parameters `*profile`
and `*crypto` are in every caller the session's per-medium
`*_srtp_local_profile` / `*_srtp_local_crypto` fields, so we write them
directly; the crypto string is modelled by its decoded byte length (the
base64 encoding of a `master_length`-byte key).  `srtp_create` is modelled
as succeeding. -/
def janus_nosip_srtp_set_local (m : MediaState) (video : Bool) : Int × MediaState :=
  let profileString : Option String :=
    match m.srtp_profile with
    | .aes128_cm_sha1_32 => some "AES_CM_128_HMAC_SHA1_32"
    | .aes128_cm_sha1_80 => some "AES_CM_128_HMAC_SHA1_80"
    | .aead_aes_128_gcm => some "AEAD_AES_128_GCM"
    | .aead_aes_256_gcm => some "AEAD_AES_256_GCM"
    | .unset => none
  match profileString with
  | none => (-2, m)
  | some ps =>
    let masterLength := srtpMasterLength m.srtp_profile
    let pol := janus_nosip_srtp_policy m.srtp_profile
    let m :=
      if video then
        { m with video_local_policy := pol, video_srtp_out := true,
                 video_srtp_local_profile := some ps,
                 video_srtp_local_crypto := some masterLength }
      else
        { m with audio_local_policy := pol, audio_srtp_out := true,
                 audio_srtp_local_profile := some ps,
                 audio_srtp_local_crypto := some masterLength }
    (0, m)

/-- The `janus_nosip_srtp_cleanup` function (lines 595-642): clears the
SRTP flags, profile, tags, contexts, keys and local profile/crypto
strings.  Freeing a policy's key does not reset the crypto policies the
profile switch wrote into `policy->rtp`/`policy->rtcp`, so the policy
fields are left as they are. -/
def janus_nosip_srtp_cleanup (m : MediaState) : MediaState :=
  { m with require_srtp := false, has_srtp_local := false,
           has_srtp_remote := false, srtp_profile := .unset,
           audio_srtp_tag := 0, audio_srtp_out := false,
           audio_srtp_in := false,
           audio_srtp_local_profile := none, audio_srtp_local_crypto := none,
           video_srtp_tag := 0, video_srtp_out := false,
           video_srtp_in := false,
           video_srtp_local_profile := none, video_srtp_local_crypto := none }

/-! ## SDP model

The SDP text is parsed by the external `janus_sdp_parse`; we model the
parsed `janus_sdp` structure, restricted to the members this plugin
reads.  Attribute values are only ever inspected through
`sscanf(value, "%d %100s inline:%100s")` on `crypto` lines and
`strstr(value, " pli")` on `rtcp-fb` lines, so an attribute carries the
outcome of those two inspections.  The external helpers
`janus_sdp_get_opusred_pt` and `janus_sdp_get_codec_name` are modelled as
data carried with the parsed SDP. -/

inductive SdpMtype where
  | audio
  | video
  | other
  deriving Repr, DecidableEq

inductive SdpMdirection where
  | defaultDir
  | sendrecv
  | sendonly
  | recvonly
  | inactive
  deriving Repr, DecidableEq

structure SdpAttr where
  name : String
  /-- NULL-ness of `a->value`. -/
  hasValue : Bool := true
  /-- For a `crypto` attribute, the result of the three-field `sscanf`:
  tag, profile string, and the base64-decoded length of the inline key;
  `none` when the parse does not yield 3 fields (or the value is NULL). -/
  crypto : Option (Int × String × Nat) := none
  /-- For an `rtcp-fb` attribute, whether the value contains `" pli"`. -/
  pliInValue : Bool := false
  deriving Repr, DecidableEq

structure SdpMLine where
  mtype : SdpMtype
  port : Nat
  proto : Option String := none
  c_addr : Option String := none
  direction : SdpMdirection := .defaultDir
  attributes : List SdpAttr := []
  ptypes : List Int := []
  index : Nat := 0
  deriving Repr, DecidableEq

structure JanusSdp where
  c_addr : Option String := none
  m_lines : List SdpMLine := []
  /-- Result of the external `janus_sdp_get_opusred_pt(sdp, -1)` scan
  (-1 when no `red/48000` rtpmap is present). -/
  opusredPtScan : Int := -1
  /-- Finite table modelling the external `janus_sdp_get_codec_name`:
  lookup by (m-line index, payload type). -/
  codecNames : List ((Nat × Int) × String) := []
  deriving Repr, DecidableEq

/-- Lookup in the codec-name table (`janus_sdp_get_codec_name`). -/
def JanusSdp.codecName (sdp : JanusSdp) (index : Nat) (pt : Int) : Option String :=
  (sdp.codecNames.find? (fun e => e.1 == (index, pt))).map (·.2)

/-! ## janus_nosip_sdp_process (lines 1858-2018) -/

/-- One turn of the attribute loop of `janus_nosip_sdp_process`
(lines 1941-1984) on one attribute of an audio or video m-line. -/
def sdpProcessAttr (m : MediaState) (mt : SdpMtype) (answer : Bool)
    (a : SdpAttr) : MediaState :=
  if strcaseEq a.name "crypto" then
    if mt = .audio ∨ mt = .video then
      if (mt = .audio ∧ m.audio_srtp_in) ∨ (mt = .video ∧ m.video_srtp_in) then
        m
      else
        match a.crypto with
        | none => m
        | some (tag, profile, cryptoLen) =>
          let video := mt = .video
          if answer ∧ ((¬video ∧ tag ≠ m.audio_srtp_tag) ∨
              (video ∧ tag ≠ m.video_srtp_tag)) then
            m
          else
            let r := janus_nosip_srtp_set_remote m video profile cryptoLen
            if r.1 < 0 then
              r.2
            else
              let m1 :=
                if ¬video then { r.2 with audio_srtp_tag := tag }
                else { r.2 with video_srtp_tag := tag }
              { m1 with has_srtp_remote := true }
    else
      m
  else if mt = .video ∧ strcaseEq a.name "rtcp-fb" ∧ a.hasValue then
    if a.pliInValue then { m with video_pli_supported := true } else m
  else
    m

/-- The end-of-m-line codec selection of `janus_nosip_sdp_process`
(lines 1985-2004), shared verbatim with `janus_nosip_sdp_manipulate`
(lines 2062-2081). -/
def sdpPickCodec (m : MediaState) (sdp : JanusSdp) (opusred_pt : Int)
    (ml : SdpMLine) : MediaState :=
  let pt : Int := match ml.ptypes with
    | [] => -1
    | p :: _ => p
  if pt > -1 then
    if ml.mtype = .audio then
      let m :=
        if pt = opusred_pt then
          { m with opusred_pt := pt,
                   audio_pt := match ml.ptypes with
                     | _ :: q :: _ => q
                     | _ => -1 }
        else
          { m with audio_pt := pt }
      { m with audio_pt_name := sdp.codecName ml.index m.audio_pt }
    else
      { m with video_pt := pt,
               video_pt_name := sdp.codecName ml.index pt }
  else
    m

/-- The test `!session->media.remote_*_ip || strcmp(addr, session->media.remote_*_ip)`
used by the update-change detection of `janus_nosip_sdp_process`. -/
def ipDiffers (old : Option String) (ca : String) : Bool :=
  match old with
  | none => true
  | some ip => ca != ip

/-- The port/direction block of the m-line loop of
`janus_nosip_sdp_process` (lines 1884-1917): only reached for audio or
video m-lines. -/
def sdpProcessPort (st : MediaState × Bool) (ml : SdpMLine) : MediaState × Bool :=
  let m := st.1
  let changed := st.2
  if ml.mtype = .audio then
    if ml.port ≠ 0 then
      let changed := if ml.port ≠ m.remote_audio_rtp_port then true else changed
      let m := { m with has_audio := true,
                        remote_audio_rtp_port := ml.port,
                        remote_audio_rtcp_port := ml.port + 1,
                        audio_send :=
                          ¬(ml.direction = .sendonly ∨ ml.direction = .inactive) }
      (m, changed)
    else
      ({ m with audio_send := false }, changed)
  else
    if ml.port ≠ 0 then
      let changed := if ml.port ≠ m.remote_video_rtp_port then true else changed
      let m := { m with has_video := true,
                        remote_video_rtp_port := ml.port,
                        remote_video_rtcp_port := ml.port + 1,
                        video_send :=
                          ¬(ml.direction = .sendonly ∨ ml.direction = .inactive) }
      (m, changed)
    else
      ({ m with video_send := false }, changed)

/-- The medium-level connection-address block of the m-line loop of
`janus_nosip_sdp_process` (lines 1923-1940). -/
def sdpProcessCAddr (update : Bool) (st : MediaState × Bool) (ml : SdpMLine) :
    MediaState × Bool :=
  let m := st.1
  let changed := st.2
  match ml.c_addr with
  | none => (m, changed)
  | some ca =>
    if ml.mtype = .audio then
      let changed :=
        if update ∧ ipDiffers m.remote_audio_ip ca then true else changed
      ({ m with remote_audio_ip := some ca }, changed)
    else
      let changed :=
        if update ∧ ipDiffers m.remote_video_ip ca then true else changed
      ({ m with remote_video_ip := some ca }, changed)

/-- One turn of the m-line loop of `janus_nosip_sdp_process`
(lines 1880-2006), threading the `*changed` out-parameter. -/
def sdpProcessMLine (sdp : JanusSdp) (answer update : Bool) (opusred_pt : Int)
    (st : MediaState × Bool) (ml : SdpMLine) : MediaState × Bool :=
  let m := st.1
  let changed := st.2
  let m := { m with require_srtp :=
    m.require_srtp || (match ml.proto with
      | some p => strcaseEq p "RTP/SAVP"
      | none => false) }
  match ml.mtype with
  | .other => (m, changed)
  | _ =>
    let st1 := sdpProcessPort (m, changed) ml
    let st2 := sdpProcessCAddr update st1 ml
    let m2 := ml.attributes.foldl (fun acc a => sdpProcessAttr acc ml.mtype answer a) st2.1
    let m3 := if answer then sdpPickCodec m2 sdp opusred_pt ml else m2
    (m3, st2.2)

/-- The session-level connection-address block of
`janus_nosip_sdp_process` (lines 1862-1879), seeding both remote IPs and
initializing the `*changed` out-parameter. -/
def sdpProcessSessionCAddr (update : Bool) (m : MediaState) (sdp : JanusSdp) :
    MediaState × Bool :=
  match sdp.c_addr with
  | none => (m, false)
  | some ca =>
    let changed :=
      if update ∧ ipDiffers m.remote_audio_ip ca then true else false
    let changed :=
      if update ∧ ipDiffers m.remote_video_ip ca then true else changed
    ({ m with remote_audio_ip := some ca, remote_video_ip := some ca }, changed)

/-- The epilogue of `janus_nosip_sdp_process` (lines 2007-2017): when an
update changed something, mark `updated` (the wake-pipe write is an
external side effect). -/
def sdpProcessFinish (update : Bool) (st : MediaState × Bool) : MediaState :=
  if update ∧ st.2 then { st.1 with updated := true } else st.1

/-- The `janus_nosip_sdp_process` function (lines 1858-2018).  The
`changed` out-parameter starts as the caller's `FALSE` and is returned. -/
def janus_nosip_sdp_process (m : MediaState) (sdp : JanusSdp)
    (answer update : Bool) : MediaState × Bool :=
  let opusred_pt : Int := if answer then sdp.opusredPtScan else -1
  let st0 := sdpProcessSessionCAddr update m sdp
  let st1 :=
    sdp.m_lines.foldl (sdpProcessMLine sdp answer update opusred_pt) st0
  (sdpProcessFinish update st1, st1.2)

/-! ## Port-pair allocation (janus_nosip_allocate_port_pair, lines 2112-2194)

Successful `socket(2)` calls return distinct descriptor ids from a fresh
counter; whether a `socket(2)` call succeeds at all is the `sock` oracle
(a failed call yields -1 and consumes no id, and the loop then breaks,
lines 2159-2162), and whether `janus_nosip_bind_socket` succeeds on a
port is the `bind` oracle (the kernel's view of which ports are free).
The DSCP and v6only `setsockopt` calls only log on failure and have no
observable effect on the allocation, so they are not modelled. -/

/-- The process-wide allocation environment: the globals
`rtp_range_min`, `rtp_range_max`, `rtp_range_slider`, plus the socket
and bind oracles and the fresh-descriptor counter. -/
structure AllocEnv where
  bind : Nat → Bool
  rtp_range_min : Nat
  rtp_range_max : Nat
  slider : Nat
  fresh : Nat := 0
  sock : Nat → Bool := fun _ => true

/-- What one iteration of the allocation loop did: which descriptors it
held, which RTP port it tried, whether the RTP bind succeeded, whether
the RTCP bind was attempted and succeeded (the RTCP bind is skipped when
the RTP bind fails), and which descriptor, if any, it closed
(the `close(rtp_fd)` at line 2175). -/
structure AllocEvent where
  rtpFd : Nat
  rtcpFd : Nat
  rtpPort : Nat
  rtpBindOk : Bool
  rtcpBindOk : Option Bool
  closedFd : Option Nat
  deriving Repr, DecidableEq

/-- Loop state of `janus_nosip_allocate_port_pair`: the local variables
`rtp_port_next`, `rtp_port_wrap`, `rtp_fd`, `rtcp_fd`, plus the fresh
counter and a trace of attempted ports and per-iteration events. -/
structure AllocSt where
  next : Nat
  wrap : Bool
  rtpFd : Option Nat := none
  rtcpFd : Option Nat := none
  fresh : Nat := 0
  attempts : List Nat := []
  events : List AllocEvent := []
  deriving Repr, DecidableEq

/-- Outcomes of the allocation loop: success, the full-range-scanned
break (lines 2122-2126), the socket-creation-failure break
(lines 2159-2162) and fuel exhaustion (a model artifact the theorems
rule out).  Both breaks make `janus_nosip_allocate_port_pair`
return -1. -/
inductive AllocOutcome where
  | ok (rtpFd rtcpFd rtpPort rtcpPort : Nat)
  | exhausted
  | sockFail
  | outOfFuel
  deriving Repr, DecidableEq

/-- The `while(1)` loop of `janus_nosip_allocate_port_pair`
(lines 2121-2186), with explicit fuel (the theorems below show the fuel
the wrapper passes is never exhausted).  Each iteration first calls
`socket(2)` for any descriptor still -1 (lines 2127-2158) and breaks
when a creation failed (lines 2159-2162); the post-loop close of
whatever was created (lines 2188-2193) releases descriptors without any
further observable effect.  On success the slider-advance value is left
in `next` (line 2183 stores it to the global). -/
def allocLoop (bind sock : Nat → Bool) (rmin rmax start : Nat) :
    Nat → AllocSt → AllocOutcome × AllocSt
  | 0, st => (.outOfFuel, st)
  | fuel + 1, st =>
    if st.wrap ∧ st.next ≥ start then
      (.exhausted, st)
    else
      let rtpOk := st.rtpFd.isSome || sock st.fresh
      let rtpFd := st.rtpFd.getD st.fresh
      let fresh := if st.rtpFd.isSome then st.fresh
        else if sock st.fresh then st.fresh + 1 else st.fresh
      let rtcpOk := st.rtcpFd.isSome || sock fresh
      let rtcpFd := st.rtcpFd.getD fresh
      let fresh := if st.rtcpFd.isSome then fresh
        else if sock fresh then fresh + 1 else fresh
      if rtpOk = false ∨ rtcpOk = false then
        -- error creating sockets: break (lines 2159-2162)
        (.sockFail,
          { st with rtpFd := if rtpOk then some rtpFd else none,
                    rtcpFd := if rtcpOk then some rtcpFd else none,
                    fresh := fresh })
      else
        let rtp_port := st.next
        let rtcp_port := rtp_port + 1
        let next := if rtp_port + 2 < rmax then st.next + 2 else rmin
        let wrap := if rtp_port + 2 < rmax then st.wrap else true
        if ¬bind rtp_port then
          -- rtp_fd still unbound, reuse it
          allocLoop bind sock rmin rmax start fuel
            { st with next := next, wrap := wrap,
                      rtpFd := some rtpFd, rtcpFd := some rtcpFd, fresh := fresh,
                      attempts := st.attempts ++ [rtp_port],
                      events := st.events ++
                        [⟨rtpFd, rtcpFd, rtp_port, false, none, none⟩] }
        else if ¬bind rtcp_port then
          -- close(rtp_fd); rtp_fd = -1; rtcp_fd still unbound, reuse it
          allocLoop bind sock rmin rmax start fuel
            { st with next := next, wrap := wrap,
                      rtpFd := none, rtcpFd := some rtcpFd, fresh := fresh,
                      attempts := st.attempts ++ [rtp_port],
                      events := st.events ++
                        [⟨rtpFd, rtcpFd, rtp_port, true, some false, some rtpFd⟩] }
        else
          (.ok rtpFd rtcpFd rtp_port rtcp_port,
            { st with next := next, wrap := wrap,
                      rtpFd := some rtpFd, rtcpFd := some rtcpFd, fresh := fresh,
                      attempts := st.attempts ++ [rtp_port],
                      events := st.events ++
                        [⟨rtpFd, rtcpFd, rtp_port, true, some true, none⟩] })

/-- The `janus_nosip_allocate_port_pair` function (lines 2112-2194).
Returns the outcome, the loop trace, and the updated environment (the
slider global is written back only on success, line 2183; socket
descriptors allocated by the call advance the fresh counter). -/
def janus_nosip_allocate_port_pair (env : AllocEnv) :
    AllocOutcome × AllocSt × AllocEnv :=
  let st0 : AllocSt :=
    { next := env.slider, wrap := false, fresh := env.fresh }
  let r := allocLoop env.bind env.sock env.rtp_range_min env.rtp_range_max
    env.slider (env.rtp_range_max + 4) st0
  match r.1 with
  | .ok _ _ _ _ =>
    (r.1, r.2, { env with slider := r.2.next, fresh := r.2.fresh })
  | _ => (r.1, r.2, { env with fresh := r.2.fresh })

/-! ## Local port allocation (janus_nosip_allocate_local_ports, 2196-2298) -/

/-- The per-medium half of `janus_nosip_allocate_local_ports` (the audio
block, lines 2235-2258, and the identical video block, lines 2259-2282):
when the medium is negotiated and has no ports yet, close any stale
descriptors and allocate a fresh pair.  Returns whether it succeeded. -/
def allocLocalMedium (video : Bool) (m : MediaState) (env : AllocEnv) :
    Bool × MediaState × AllocEnv :=
  let needed :=
    if video then
      m.has_video ∧ (m.local_video_rtp_port = 0 ∨ m.local_video_rtcp_port = 0)
    else
      m.has_audio ∧ (m.local_audio_rtp_port = 0 ∨ m.local_audio_rtcp_port = 0)
  if needed then
    let m :=
      if video then { m with video_rtp_fd := -1, video_rtcp_fd := -1 }
      else { m with audio_rtp_fd := -1, audio_rtcp_fd := -1 }
    match janus_nosip_allocate_port_pair env with
    | (.ok f0 f1 p0 p1, _, env) =>
      let m :=
        if video then
          { m with video_rtp_fd := (f0 : Int), video_rtcp_fd := (f1 : Int),
                   local_video_rtp_port := p0, local_video_rtcp_port := p1 }
        else
          { m with audio_rtp_fd := (f0 : Int), audio_rtcp_fd := (f1 : Int),
                   local_audio_rtp_port := p0, local_audio_rtcp_port := p1 }
      (true, m, env)
    | (_, _, env) => (false, m, env)
  else
    (true, m, env)

/-- The reset prefix of `janus_nosip_allocate_local_ports`
(lines 2201-2233): on a non-update, close and clear the media sockets,
ports, SSRCs and the wake pipe. -/
def allocPortsReset (update : Bool) (m : MediaState) : MediaState :=
  if ¬update then
    { m with audio_rtp_fd := -1, audio_rtcp_fd := -1,
             local_audio_rtp_port := 0, local_audio_rtcp_port := 0,
             audio_ssrc := 0,
             video_rtp_fd := -1, video_rtcp_fd := -1,
             local_video_rtp_port := 0, local_video_rtcp_port := 0,
             video_ssrc := 0,
             pipefd0 := -1, pipefd1 := -1 }
  else m

def janus_nosip_allocate_local_ports (m : MediaState) (update : Bool)
    (env : AllocEnv) : Int × MediaState × AllocEnv :=
  let m := allocPortsReset update m
  match allocLocalMedium false m env with
  | (false, m, env) => (-1, m, env)
  | (true, m, env) =>
    match allocLocalMedium true m env with
    | (false, m, env) => (-1, m, env)
    | (true, m, env) =>
      if ¬update then
        let m := { m with pipefd0 := (env.fresh : Int),
                          pipefd1 := ((env.fresh + 1 : Nat) : Int) }
        (0, m, { env with fresh := env.fresh + 2 })
      else
        -- mark updated and write a byte to the wake pipe (external)
        (0, { m with updated := true }, env)

/-! ## janus_nosip_sdp_manipulate (lines 2020-2086) -/

/-- One turn of the m-line loop of `janus_nosip_sdp_manipulate`
(lines 2030-2083).  The crypto attribute appended at lines 2043-2045 /
2055-2057 is modelled by the fields its value would parse back to. -/
def manipMLine (sdp : JanusSdp) (answer : Bool) (opusred_pt : Int)
    (sdpIp localIp : Option String) (m : MediaState) (ml : SdpMLine) :
    MediaState × SdpMLine :=
  let protoStr : String := if m.require_srtp then "RTP/SAVP" else "RTP/AVP"
  let ml := { ml with proto := some protoStr }
  let r1 : MediaState × SdpMLine :=
    if ml.mtype = .audio then
      let ml := { ml with port := m.local_audio_rtp_port }
      if m.has_srtp_local then
        let m :=
          if m.audio_srtp_local_profile = none ∨ m.audio_srtp_local_crypto = none then
            (janus_nosip_srtp_set_local m false).2
          else m
        let m := if m.audio_srtp_tag = 0 then { m with audio_srtp_tag := 1 } else m
        let attr : SdpAttr :=
          { name := "crypto",
            crypto := some (m.audio_srtp_tag,
              m.audio_srtp_local_profile.getD "",
              m.audio_srtp_local_crypto.getD 0) }
        (m, { ml with attributes := ml.attributes ++ [attr] })
      else
        (m, ml)
    else if ml.mtype = .video then
      let ml := { ml with port := m.local_video_rtp_port }
      if m.has_srtp_local then
        let m :=
          if m.video_srtp_local_profile = none ∨ m.video_srtp_local_crypto = none then
            (janus_nosip_srtp_set_local m true).2
          else m
        let m := if m.video_srtp_tag = 0 then { m with video_srtp_tag := 1 } else m
        let attr : SdpAttr :=
          { name := "crypto",
            crypto := some (m.video_srtp_tag,
              m.video_srtp_local_profile.getD "",
              m.video_srtp_local_crypto.getD 0) }
        (m, { ml with attributes := ml.attributes ++ [attr] })
      else
        (m, ml)
    else
      (m, ml)
  let m2 := r1.1
  let ml2 : SdpMLine := { r1.2 with c_addr := if sdpIp.isSome then sdpIp else localIp }
  let m3 :=
    if answer ∧ (ml2.mtype = .audio ∨ ml2.mtype = .video) then
      sdpPickCodec m2 sdp opusred_pt ml2
    else m2
  (m3, ml2)

/-- The `janus_nosip_sdp_manipulate` function (lines 2020-2086); the
final `janus_sdp_write` rendering is external, so the rewritten parsed
SDP is returned instead of its text. -/
def janus_nosip_sdp_manipulate (m : MediaState) (sdp : JanusSdp)
    (answer : Bool) (sdpIp localIp : Option String) : MediaState × JanusSdp :=
  let c_addr := if sdp.c_addr.isSome then sdpIp else sdp.c_addr
  let opusred_pt : Int := if answer then sdp.opusredPtScan else -1
  let (m, revLines) := sdp.m_lines.foldl
    (fun acc ml =>
      let r := manipMLine sdp answer opusred_pt sdpIp localIp acc.1 ml
      (r.1, r.2 :: acc.2))
    (m, ([] : List SdpMLine))
  (m, { sdp with c_addr := c_addr, m_lines := revLines.reverse })

/-! ## Session aggregate and recorders -/

/-- A recorder handle (`janus_recorder`), modelled by whether RED was
attached to it via `janus_recorder_opusred`. -/
structure RecInfo where
  opusredPt : Option Int := none
  deriving Repr, DecidableEq

/-- The parts of `janus_nosip_session` the request handler touches. -/
structure Session where
  media : MediaState := {}
  sdp : Option JanusSdp := none
  hangingup : Bool := false
  arc : Option RecInfo := none
  vrc : Option RecInfo := none
  arc_peer : Option RecInfo := none
  vrc_peer : Option RecInfo := none
  deriving Repr, DecidableEq

/-- The `janus_nosip_recorder_close` helper (lines 1261-1293). -/
def janus_nosip_recorder_close (s : Session)
    (stop_audio stop_audio_peer stop_video stop_video_peer : Bool) : Session :=
  let s := if s.arc.isSome ∧ stop_audio then { s with arc := none } else s
  let s := if s.arc_peer.isSome ∧ stop_audio_peer then { s with arc_peer := none } else s
  let s := if s.vrc.isSome ∧ stop_video then { s with vrc := none } else s
  let s := if s.vrc_peer.isSome ∧ stop_video_peer then { s with vrc_peer := none } else s
  s

/-! ## The request handler (janus_nosip_handler, lines 1387-1645)

The JSON plumbing (jansson) is modelled by the values the handler reads
out of the message; the raw SDP string is modelled by the outcomes of the
`strstr` probes and of the external `janus_sdp_parse` /
`janus_rtp_header_extension_get_id` calls on it. -/

/-- The SDP attached to a `generate` request (in `msg->jsep`) or inlined
in a `process` request (in the request body). -/
structure SdpMsg where
  /-- Whether the `sdp` string is present (`msg_sdp != NULL`). -/
  present : Bool := true
  /-- The `type` string, `none` when absent. -/
  sdpType : Option String := none
  /-- The `update` boolean. -/
  update : Bool := false
  /-- Whether `strstr(msg_sdp, "m=application")` hits. -/
  hasApplicationM : Bool := false
  /-- Whether `strstr(msg_sdp, "m=audio")` hits. -/
  mentionsAudio : Bool := false
  /-- Whether `strstr(msg_sdp, "m=audio 0")` hits. -/
  mentionsAudioZero : Bool := false
  mentionsVideo : Bool := false
  mentionsVideoZero : Bool := false
  /-- Result of `janus_rtp_header_extension_get_id` for video-orientation. -/
  voExtId : Int := -1
  /-- Result of `janus_rtp_header_extension_get_id` for audio-level. -/
  alExtId : Int := -1
  /-- Result of the external `janus_sdp_parse` (`none` = parse error). -/
  parsed : Option JanusSdp := none

/-- Shape of the `ssrcs` member of the first entry of the jsep
`simulcast` array (lines 1558-1570). -/
inductive SimulcastSsrcs where
  | absent
  | arr (l : List Nat)
  | obj (ssrc0 : Option Nat)
  deriving Repr, DecidableEq

/-- The simulcast handling of the generate branch (lines 1557-1571).
After the conditional read of array slot 0, the code unconditionally
overwrites `simulcast_ssrc` with `json_integer_value(json_object_get(s,
"ssrc-0"))`; `json_object_get` returns NULL on a NULL or array argument
and `json_integer_value(NULL)` is 0. -/
def applySimulcast (m : MediaState) (sim : Option SimulcastSsrcs) : MediaState :=
  match sim with
  | none => m
  | some .absent => { m with simulcast_ssrc := 0 }
  | some (.arr l) =>
    let m := match l with
      | [] => m
      | x :: _ => { m with simulcast_ssrc := x }
    { m with simulcast_ssrc := 0 }
  | some (.obj o) => { m with simulcast_ssrc := o.getD 0 }

/-- The asynchronous response to a `generate`/`process` request (the
`result` object pushed on success). -/
structure GPResult where
  event : String
  resType : Option String := none
  srtpField : Option String := none
  updateFlag : Bool := false
  deriving Repr, DecidableEq

/-- Outcome of the request validation prefix of the `generate`/`process`
branch (lines 1403-1456): the SDP type, the update flag (forced for
`process` on a ready session, lines 1407-1409) and the `srtp` field
decoded into the local `do_srtp`/`require_srtp` variables. -/
structure GPChecked where
  offer : Bool
  sdp_update : Bool
  do_srtp : Bool
  require_srtp : Bool
  deriving Repr, DecidableEq

/-- The validation prefix of the `generate`/`process` branch
(lines 1403-1456): missing SDP or type, invalid type, `m=application`,
`e2ee`, and the `srtp` request field. -/
def gpValidate (ready generate : Bool) (msg : SdpMsg) (e2ee : Bool)
    (srtpReq : Option String) : Except Nat GPChecked :=
  let sdp_update := msg.update || (!generate && ready)
  if ¬msg.present then
    .error JANUS_NOSIP_ERROR_MISSING_SDP
  else
    match msg.sdpType with
    | none => .error JANUS_NOSIP_ERROR_MISSING_SDP
    | some ty =>
      if ¬(strcaseEq ty "offer" ∨ strcaseEq ty "answer") then
        .error JANUS_NOSIP_ERROR_MISSING_SDP
      else if msg.hasApplicationM then
        .error JANUS_NOSIP_ERROR_MISSING_SDP
      else if e2ee then
        .error JANUS_NOSIP_ERROR_INVALID_ELEMENT
      else
        let offer := strcaseEq ty "offer"
        match srtpReq with
        | none => .ok ⟨offer, sdp_update, false, false⟩
        | some t =>
          if strcaseEq t "sdes_optional" then
            .ok ⟨offer, sdp_update, true, false⟩
          else if strcaseEq t "sdes_mandatory" then
            .ok ⟨offer, sdp_update, true, true⟩
          else
            .error JANUS_NOSIP_ERROR_INVALID_ELEMENT

/-- The `strcmp` chain decoding the optional `srtp_profile` request field
(lines 1478-1498), starting from the `JANUS_SRTP_AES128_CM_SHA1_80`
default; `none` is the invalid-element error. -/
def gpSrtpProfile (srtpProfileReq : Option String) : Option SrtpProfile :=
  match srtpProfileReq with
  | none => some .aes128_cm_sha1_80
  | some p =>
    if p == "AES_CM_128_HMAC_SHA1_32" then some .aes128_cm_sha1_32
    else if p == "AES_CM_128_HMAC_SHA1_80" then some .aes128_cm_sha1_80
    else if p == "AEAD_AES_128_GCM" then some .aead_aes_128_gcm
    else if p == "AEAD_AES_256_GCM" then some .aead_aes_256_gcm
    else none

/-- The header-extension id assignments (lines 1502-1505), reached on
every path of lines 1457-1505 that does not `goto error`. -/
def gpSrtpExt (s : Session) (msg : SdpMsg) : Session :=
  { s with media := { s.media with
      video_orientation_extension_id := msg.voExtId,
      audio_level_extension_id := msg.alExtId } }

/-- The SRTP state manipulation of the `generate`/`process` branch
(lines 1457-1505): SRTP cleanup on a fresh offer, the `require_srtp`
assignment, for `generate` the answer consistency check (TOO_STRICT,
only reached when the attached description is an answer), the
`has_srtp_local` assignment and profile selection, and the
header-extension id assignments.  Errors return the state as mutated so
far, as `goto error` performs no rollback. -/
def gpSrtpState (s : Session) (generate : Bool) (c : GPChecked)
    (srtpProfileReq : Option String) (msg : SdpMsg) :
    Session × Except Nat Unit :=
  let s :=
    if c.offer ∧ ¬c.sdp_update then
      { s with media := janus_nosip_srtp_cleanup s.media }
    else s
  let s := { s with media := { s.media with require_srtp := c.require_srtp } }
  if generate then
    let do_srtp :=
      if ¬c.offer then c.do_srtp || s.media.has_srtp_remote else c.do_srtp
    -- make sure the request is consistent with the state (original offer)
    if ¬c.offer ∧ s.media.require_srtp ∧ ¬s.media.has_srtp_remote then
      (s, .error JANUS_NOSIP_ERROR_TOO_STRICT)
    else
      let s := { s with media := { s.media with has_srtp_local := do_srtp } }
      if do_srtp then
        match gpSrtpProfile srtpProfileReq with
        | none => (s, .error JANUS_NOSIP_ERROR_INVALID_ELEMENT)
        | some p =>
          (gpSrtpExt { s with media := { s.media with srtp_profile := p } } msg,
            .ok ())
      else
        (gpSrtpExt s msg, .ok ())
  else
    (gpSrtpExt s msg, .ok ())

/-- The `generate` body (lines 1515-1579): negotiated-media detection on
the raw SDP string, local port allocation, SDP manipulation (the handler
always passes `answer = FALSE`, line 1536), storing the parsed SDP,
resetting `hangingup` and the simulcast fallback.  The negotiated-media
detection on the raw SDP string (lines 1516-1521) is split out as
`gpGenerateFlags`. -/
def gpGenerateFlags (s : Session) (msg : SdpMsg) : Session :=
  let s :=
    if msg.mentionsAudio ∧ ¬msg.mentionsAudioZero then
      { s with media := { s.media with has_audio := true } }
    else s
  if msg.mentionsVideo ∧ ¬msg.mentionsVideoZero then
    { s with media := { s.media with has_video := true } }
  else s

def gpGenerate (s : Session) (c : GPChecked) (msg : SdpMsg)
    (parsed_sdp : JanusSdp) (sim : Option SimulcastSsrcs) (env : AllocEnv)
    (sdpIp localIp : Option String) :
    Session × AllocEnv × Except Nat GPResult :=
  let s := gpGenerateFlags s msg
  let ra := janus_nosip_allocate_local_ports s.media c.sdp_update env
  let s := { s with media := ra.2.1 }
  let env := ra.2.2
  if ra.1 < 0 then
    (s, env, .error JANUS_NOSIP_ERROR_IO_ERROR)
  else
    let man := janus_nosip_sdp_manipulate s.media parsed_sdp false sdpIp localIp
    let s := { s with media := man.1, sdp := some man.2, hangingup := false }
    let s := { s with media := applySimulcast s.media sim }
    (s, env, .ok { event := "generated",
                   resType := some (if c.offer then "offer" else "answer"),
                   updateFlag := c.sdp_update })

/-- The `process` body (lines 1580-1627): run `janus_nosip_sdp_process`,
then the negotiated-media, remote-IP and SRTP-requirement checks, store
the parsed SDP and build the `processed` result.  Errors return the
state with every `sdp_process` mutation retained, as `goto error`
performs no rollback. -/
def gpProcess (s : Session) (c : GPChecked) (parsed_sdp : JanusSdp) :
    Session × Except Nat GPResult :=
  let pr := janus_nosip_sdp_process s.media parsed_sdp (!c.offer) c.sdp_update
  let s := { s with media := pr.1 }
  if ¬s.media.has_audio ∧ ¬s.media.has_video then
    (s, .error JANUS_NOSIP_ERROR_INVALID_SDP)
  else if s.media.remote_audio_ip = none ∧ s.media.remote_video_ip = none then
    (s, .error JANUS_NOSIP_ERROR_INVALID_SDP)
  else if s.media.require_srtp ∧ ¬s.media.has_srtp_remote then
    (s, .error JANUS_NOSIP_ERROR_TOO_STRICT)
  else
    let s := { s with sdp := some parsed_sdp }
    (s, .ok { event := "processed",
              srtpField :=
                if s.media.has_srtp_remote then
                  some (if s.media.require_srtp then "sdes_mandatory"
                        else "sdes_optional")
                else none,
              updateFlag := c.sdp_update })

/-- The start-the-media epilogue (lines 1629-1645): on a non-update
answer mark the session ready and spawn the relay thread; if
`g_thread_try_new` fails (`threadOk = false`), ready is reset. -/
def gpStartMedia (s : Session) (c : GPChecked) (threadOk : Bool) : Session :=
  if ¬c.sdp_update ∧ ¬c.offer then
    let s := { s with media := { s.media with ready := true } }
    if ¬threadOk then { s with media := { s.media with ready := false } }
    else s
  else s

/-- The shared `generate`/`process` branch of `janus_nosip_handler`
(lines 1387-1645), composed from the stages above.  `e2ee` is the jsep
`e2ee` flag, `srtpReq` and `srtpProfileReq` the request's `srtp` and
`srtp_profile` strings, `sim` the jsep simulcast information, `threadOk`
whether `g_thread_try_new` succeeds.  Errors return the error code
pushed by the `error:` label together with the session state as mutated
up to that point. -/
def janus_nosip_handler_gp (s0 : Session) (generate : Bool) (msg : SdpMsg)
    (e2ee : Bool) (srtpReq srtpProfileReq : Option String)
    (sim : Option SimulcastSsrcs) (env0 : AllocEnv)
    (sdpIp localIp : Option String) (threadOk : Bool) :
    Session × AllocEnv × Except Nat GPResult :=
  match gpValidate s0.media.ready generate msg e2ee srtpReq with
  | .error e => (s0, env0, .error e)
  | .ok c =>
    match gpSrtpState s0 generate c srtpProfileReq msg with
    | (s1, .error e) => (s1, env0, .error e)
    | (s1, .ok ()) =>
      match msg.parsed with
      | none => (s1, env0, .error JANUS_NOSIP_ERROR_MISSING_SDP)
      | some parsed_sdp =>
        if generate then
          match gpGenerate s1 c msg parsed_sdp sim env0 sdpIp localIp with
          | (s2, env2, .error e) => (s2, env2, .error e)
          | (s2, env2, .ok res) => (gpStartMedia s2 c threadOk, env2, .ok res)
        else
          match gpProcess s1 c parsed_sdp with
          | (s2, .error e) => (s2, env0, .error e)
          | (s2, .ok res) => (gpStartMedia s2 c threadOk, env0, .ok res)

/-! ## The recording branch of the handler (lines 1651-1797) -/

/-- Outcomes of the four possible `janus_recorder_create` calls
(external: whether opening the recording file succeeds). -/
structure RecOutcomes where
  arcOk : Bool := true
  vrcOk : Bool := true
  arcPeerOk : Bool := true
  vrcPeerOk : Bool := true
  deriving Repr, DecidableEq

/-- The `recording` branch of `janus_nosip_handler` (lines 1651-1797).
On success the pushed result is the `recordingupdated` event; errors
return the pushed error code.  When a `janus_recorder_create` call fails
(`rec.*Ok = false`) the C code only logs the failure (lines 1707-1709,
1731-1733, 1756-1758, 1779-1781) and leaves the corresponding session
recorder unset; the per-block state updates are written as one
conditional each.  The PLI sent when recording user video is an external
upcall. -/
def janus_nosip_handler_recording (s : Session) (action : String)
    (audio video peer_audio peer_video : Option Bool)
    (rec : RecOutcomes) : Session × Except Nat String :=
  if ¬(strcaseEq action "start" ∨ strcaseEq action "stop") then
    (s, .error JANUS_NOSIP_ERROR_INVALID_ELEMENT)
  else
    let record_audio := audio.getD false
    let record_video := video.getD false
    let record_peer_audio := peer_audio.getD false
    let record_peer_video := peer_video.getD false
    if ¬record_audio ∧ ¬record_video ∧ ¬record_peer_audio ∧ ¬record_peer_video then
      (s, .error JANUS_NOSIP_ERROR_RECORDING_ERROR)
    else if strcaseEq action "start" then
      -- if RED is in use, take note of it on the audio recorders
      let red : Option Int :=
        if s.media.opusred_pt > 0 then some s.media.opusred_pt else none
      let s1 :=
        if record_peer_audio ∧ rec.arcPeerOk then
          { s with arc_peer := some { opusredPt := red } }
        else s
      let s2 :=
        if record_peer_video ∧ rec.vrcPeerOk then
          { s1 with vrc_peer := some {} }
        else s1
      let s3 :=
        if record_audio ∧ rec.arcOk then
          { s2 with arc := some { opusredPt := red } }
        else s2
      let s4 :=
        if record_video ∧ rec.vrcOk then
          { s3 with vrc := some {} }
        else s3
      (s4, .ok "recordingupdated")
    else
      (janus_nosip_recorder_close s record_audio record_peer_audio
        record_video record_peer_video, .ok "recordingupdated")

/-! ## Outbound RTP entry point (janus_nosip_incoming_rtp, lines 1128-1206) -/

/-- The fields of an outbound RTP packet the entry point inspects:
medium, the SSRC in the RTP header (`ntohl(header->ssrc)`). -/
structure RtpPacket where
  video : Bool
  ssrc : Nat
  deriving Repr, DecidableEq

/-- The `janus_nosip_incoming_rtp` entry point (lines 1128-1206),
restricted to its effect on session state and whether the packet reaches
the forwarding branch (SRTP protection and `send(2)` are external).
Returns the new state and whether the packet was forwarded. -/
def janus_nosip_incoming_rtp (m : MediaState) (p : RtpPacket) :
    MediaState × Bool :=
  -- honour the audio/video active flags
  if (p.video ∧ ¬m.video_send) ∨ (¬p.video ∧ ¬m.audio_send) then
    (m, false)
  else if p.video ∧ m.simulcast_ssrc ≠ 0 ∧ p.ssrc ≠ m.simulcast_ssrc then
    -- simulcasting: drop everything except the base layer
    (m, false)
  else
    let m :=
      if (p.video ∧ m.video_ssrc = 0) ∨ (¬p.video ∧ m.audio_ssrc = 0) then
        if p.video then { m with video_ssrc := p.ssrc }
        else { m with audio_ssrc := p.ssrc }
      else m
    if (p.video ∧ m.has_video ∧ m.video_rtp_fd ≠ -1) ∨
        (¬p.video ∧ m.has_audio ∧ m.audio_rtp_fd ≠ -1) then
      (m, true)
    else
      (m, false)

/-- Whether a request's `srtp` field selects SDES (either value accepted
by the handler, lines 1441-1449). -/
def srtpSelectsSdes (srtpReq : Option String) : Bool :=
  match srtpReq with
  | none => false
  | some t => strcaseEq t "sdes_optional" || strcaseEq t "sdes_mandatory"

/-! ## Concrete fixtures used by witnesses and counterexamples -/

/-- A parsed description with a single zero-port audio section and a
session-level connection address. -/
def sdpAudioZero : JanusSdp :=
  { c_addr := some "1.2.3.4",
    m_lines := [{ mtype := .audio, port := 0 }] }

/-- A parsed description with one audio section on port 16000. -/
def sdpAudio16 : JanusSdp :=
  { c_addr := some "1.2.3.4",
    m_lines := [{ mtype := .audio, port := 16000 }] }

/-- A parsed description with audio on 16000 and video on 16002. -/
def sdpAV : JanusSdp :=
  { c_addr := some "1.2.3.4",
    m_lines := [{ mtype := .audio, port := 16000, index := 0 },
                { mtype := .video, port := 16002, index := 1 }] }

/-- A `process` request carrying `sdpAudioZero` as an offer. -/
def msgProcessAudioZero : SdpMsg :=
  { sdpType := some "offer", parsed := some sdpAudioZero }

/-- A `process` request carrying `sdpAudio16` as an offer. -/
def msgProcessAudio16 : SdpMsg :=
  { sdpType := some "offer", parsed := some sdpAudio16 }

/-- A `process` request carrying `sdpAV` as an offer. -/
def msgProcessAV : SdpMsg :=
  { sdpType := some "offer", parsed := some sdpAV }

/-- A `generate` request whose attached description is an answer with one
audio m-line. -/
def msgGenerateAnswer : SdpMsg :=
  { sdpType := some "answer", mentionsAudio := true,
    parsed := some sdpAudio16 }

/-- An allocation environment where every bind succeeds, over the port
range 10000-10010 with the slider at its start. -/
def envBindAll : AllocEnv :=
  { bind := fun _ => true, rtp_range_min := 10000,
    rtp_range_max := 10010, slider := 10000 }

/-- An allocation environment where only port 10001 is busy: the first
candidate pair binds RTP on 10000 but fails RTCP on 10001. -/
def envRtcpBusy : AllocEnv :=
  { bind := fun p => p ≠ 10001, rtp_range_min := 10000,
    rtp_range_max := 10010, slider := 10000 }

/-- An allocation environment where `socket(2)` fails: the loop breaks
at lines 2159-2162 on its first iteration. -/
def envSockFail : AllocEnv :=
  { bind := fun _ => true, rtp_range_min := 10000,
    rtp_range_max := 10010, slider := 10000, sock := fun _ => false }

/-- A session on which an earlier request already committed mandatory
SRTP (`require_srtp` set) without any remote crypto installed. -/
def sessRequireSrtp : Session :=
  { media := { require_srtp := true } }

/-- A session on which a remote SDES crypto line has already been
installed by a processed offer. -/
def sessRemoteSrtp : Session :=
  { media := { has_srtp_remote := true, audio_srtp_in := true } }

end NoSip

deriving instance DecidableEq for Except

namespace NoSip

/-! ## Predicates the theorems below are stated with -/

/-- The negotiated-media flags and remote ports of a media state: the
fields claims C5 and C6 are about.  The crypto, codec-selection and
connection-address parts of the m-line loop leave them unchanged. -/
def samePorts (m1 m0 : MediaState) : Prop :=
  m1.has_audio = m0.has_audio ∧ m1.has_video = m0.has_video ∧
  m1.remote_audio_rtp_port = m0.remote_audio_rtp_port ∧
  m1.remote_audio_rtcp_port = m0.remote_audio_rtcp_port ∧
  m1.remote_video_rtp_port = m0.remote_video_rtp_port ∧
  m1.remote_video_rtcp_port = m0.remote_video_rtcp_port

/-- The remote-audio-port invariant claim C6 needs. -/
def audioPortsOk (m : MediaState) : Prop :=
  0 < m.remote_audio_rtp_port ∧
  m.remote_audio_rtcp_port = m.remote_audio_rtp_port + 1

def videoPortsOk (m : MediaState) : Prop :=
  0 < m.remote_video_rtp_port ∧
  m.remote_video_rtcp_port = m.remote_video_rtp_port + 1

/-- Invariant of the allocation loop, relating the cursor and wrap flag
to the attempted ports: before wrapping, the attempts are the even-step
arithmetic progression from the starting slider; afterwards they are
that progression (which crossed `rmax`) followed by one restarting at
`rmin` that has not yet reached the start. -/
def allocInv (rmin rmax start : Nat) (st : AllocSt) : Prop :=
  (st.wrap = false →
    ∃ k, st.next = start + 2 * k ∧ st.next < rmax ∧
      st.attempts = List.range' start k 2) ∧
  (st.wrap = true →
    ∃ k1 k2, st.attempts = List.range' start k1 2 ++ List.range' rmin k2 2 ∧
      rmax ≤ start + 2 * k1 ∧ st.next = rmin + 2 * k2 ∧ st.next ≤ start)

/-- Termination measure of the allocation loop: an upper bound on the
number of iterations still possible from a state. -/
def allocMeasure (rmax start : Nat) (st : AllocSt) : Nat :=
  if st.wrap then (start - st.next) / 2 + 1
  else (rmax - st.next) / 2 + start / 2 + 2

/-- What one loop iteration is allowed to close (lines 2172-2185): when
the RTP bind fails, the RTCP bind is not attempted and nothing is
closed; when the RTP bind succeeds but the RTCP bind fails, the closed
descriptor is exactly the RTP one — the one whose bind succeeded. -/
def allocEventOk (e : AllocEvent) : Prop :=
  (e.rtpBindOk = false → e.rtcpBindOk = none ∧ e.closedFd = none) ∧
  (e.rtpBindOk = true → e.rtcpBindOk = some false → e.closedFd = some e.rtpFd)

/-- How consecutive loop iterations reuse descriptors: after a failed
RTP bind both sockets are kept; after a failed RTCP bind the RTCP
socket (the one whose bind failed) is the one kept. -/
def allocReuse (e e1 : AllocEvent) : Prop :=
  (e.rtpBindOk = false → e1.rtpFd = e.rtpFd ∧ e1.rtcpFd = e.rtcpFd) ∧
  (e.rtpBindOk = true → e.rtcpBindOk = some false → e1.rtcpFd = e.rtcpFd)

/-- Relation between the last recorded event and the descriptors held in
the loop state, used to thread `allocReuse` through the induction. -/
def allocLastCompat (st : AllocSt) : Prop :=
  ∀ e, st.events.getLast? = some e →
    (e.rtpBindOk = false → st.rtpFd = some e.rtpFd ∧ st.rtcpFd = some e.rtcpFd) ∧
    (e.rtpBindOk = true → e.rtcpBindOk = some false →
      st.rtpFd = none ∧ st.rtcpFd = some e.rtcpFd)

/-! ## General helpers for the proofs -/

/-- A field kept invariant by every fold step is kept invariant by the
whole fold. -/
theorem foldl_preserve {σ α : Type} (f : σ → α → σ) (P : σ → Prop)
    (step : ∀ s a, P s → P (f s a)) :
    ∀ (l : List α) (s : σ), P s → P (l.foldl f s) := by
  intro l
  induction l with
  | nil => intro s h; exact h
  | cons a t ih => intro s h; exact ih (f s a) (step s a h)

/-! ## C7: SRTP policy variants per profile -/

/-- Equation for a successful remote SRTP install: the profile string is
recognized and the decoded key is long enough. -/
theorem set_remote_success_policy (m : MediaState) (video : Bool)
    (profile : String) (cryptoLen : Nat) (p : SrtpProfile)
    (hp : srtpProfileOfString profile = some p)
    (hlen : ¬cryptoLen < srtpMasterLength p) :
    janus_nosip_srtp_set_remote m video profile cryptoLen =
      (0, if video then
            { m with srtp_profile := p,
                     video_remote_policy := janus_nosip_srtp_policy p,
                     video_srtp_in := true }
          else
            { m with srtp_profile := p,
                     audio_remote_policy := janus_nosip_srtp_policy p,
                     audio_srtp_in := true }) := by
  unfold janus_nosip_srtp_set_remote
  rw [hp]
  simp [hlen]

/-- C7: for every SRTP context installed (local or remote) with the
AES_CM_128_HMAC_SHA1_32 profile, the RTP policy uses the 32-bit-auth
variant while the RTCP policy uses the 80-bit-auth variant; for all
other supported profiles the RTP and RTCP policies use the same cipher
variant. -/
theorem C7_sha1_32_rtcp_uses_80 :
    (∀ (m : MediaState) (video : Bool) (profile : String) (cryptoLen : Nat),
      (janus_nosip_srtp_set_remote m video profile cryptoLen).1 = 0 →
      ∃ pr,
        (if video then
            (janus_nosip_srtp_set_remote m video profile cryptoLen).2.video_remote_policy
         else
            (janus_nosip_srtp_set_remote m video profile cryptoLen).2.audio_remote_policy) =
          some pr ∧
        (strcaseEq profile "AES_CM_128_HMAC_SHA1_32" = true →
          pr = (SrtpCrypto.aes_cm_128_hmac_sha1_32, SrtpCrypto.aes_cm_128_hmac_sha1_80)) ∧
        (strcaseEq profile "AES_CM_128_HMAC_SHA1_32" = false → pr.1 = pr.2)) ∧
    (∀ (m : MediaState) (video : Bool),
      (janus_nosip_srtp_set_local m video).1 = 0 →
      ∃ pr,
        (if video then (janus_nosip_srtp_set_local m video).2.video_local_policy
         else (janus_nosip_srtp_set_local m video).2.audio_local_policy) = some pr ∧
        (m.srtp_profile = .aes128_cm_sha1_32 →
          pr = (SrtpCrypto.aes_cm_128_hmac_sha1_32, SrtpCrypto.aes_cm_128_hmac_sha1_80)) ∧
        (m.srtp_profile ≠ .aes128_cm_sha1_32 → pr.1 = pr.2)) := by
  constructor
  · intro m video profile cryptoLen h
    cases hp : srtpProfileOfString profile with
    | none =>
      unfold janus_nosip_srtp_set_remote at h
      rw [hp] at h
      exact absurd h (by norm_num)
    | some p =>
      by_cases hlen : cryptoLen < srtpMasterLength p
      · unfold janus_nosip_srtp_set_remote at h
        rw [hp] at h
        simp [hlen] at h
      · rw [set_remote_success_policy m video profile cryptoLen p hp hlen]
        have hps := hp
        unfold srtpProfileOfString at hps
        by_cases h1 : strcaseEq profile "AES_CM_128_HMAC_SHA1_32" = true
        · simp [h1] at hps
          subst hps
          cases video <;>
            exact ⟨(.aes_cm_128_hmac_sha1_32, .aes_cm_128_hmac_sha1_80),
              by simp [janus_nosip_srtp_policy], fun _ => rfl,
              fun hc => absurd h1 (by simp [hc])⟩
        · simp [h1] at hps
          by_cases h2 : strcaseEq profile "AES_CM_128_HMAC_SHA1_80" = true
          · simp [h2] at hps
            subst hps
            cases video <;>
              exact ⟨(.aes_cm_128_hmac_sha1_80, .aes_cm_128_hmac_sha1_80),
                by simp [janus_nosip_srtp_policy],
                fun hc => absurd hc h1, fun _ => rfl⟩
          · simp [h2] at hps
            by_cases h3 : strcaseEq profile "AEAD_AES_128_GCM" = true
            · simp [h3] at hps
              subst hps
              cases video <;>
                exact ⟨(.aes_gcm_128_16_auth, .aes_gcm_128_16_auth),
                  by simp [janus_nosip_srtp_policy],
                  fun hc => absurd hc h1, fun _ => rfl⟩
            · simp [h3] at hps
              by_cases h4 : strcaseEq profile "AEAD_AES_256_GCM" = true
              · simp [h4] at hps
                subst hps
                cases video <;>
                  exact ⟨(.aes_gcm_256_16_auth, .aes_gcm_256_16_auth),
                    by simp [janus_nosip_srtp_policy],
                    fun hc => absurd hc h1, fun _ => rfl⟩
              · simp [h4] at hps
  · intro m video h
    unfold janus_nosip_srtp_set_local at h ⊢
    cases hp : m.srtp_profile <;> simp only [hp] at h ⊢
    case unset => exact absurd h (by norm_num)
    case aes128_cm_sha1_32 =>
      cases video <;>
        exact ⟨(.aes_cm_128_hmac_sha1_32, .aes_cm_128_hmac_sha1_80),
          by simp [janus_nosip_srtp_policy, srtpMasterLength], fun _ => rfl,
          fun hc => absurd rfl hc⟩
    case aes128_cm_sha1_80 =>
      cases video <;>
        exact ⟨(.aes_cm_128_hmac_sha1_80, .aes_cm_128_hmac_sha1_80),
          by simp [janus_nosip_srtp_policy, srtpMasterLength],
          fun hc => absurd hc (by simp), fun _ => rfl⟩
    case aead_aes_128_gcm =>
      cases video <;>
        exact ⟨(.aes_gcm_128_16_auth, .aes_gcm_128_16_auth),
          by simp [janus_nosip_srtp_policy, srtpMasterLength],
          fun hc => absurd hc (by simp), fun _ => rfl⟩
    case aead_aes_256_gcm =>
      cases video <;>
        exact ⟨(.aes_gcm_256_16_auth, .aes_gcm_256_16_auth),
          by simp [janus_nosip_srtp_policy, srtpMasterLength],
          fun hc => absurd hc (by simp), fun _ => rfl⟩

/-- Witness for C7 at concrete inputs: the remote install with the
SHA1-32 profile string and a 30-byte key on a fresh session, and the
local install on a session whose profile is SHA1-32. -/
theorem C7_sha1_32_rtcp_uses_80_witness :
    ((janus_nosip_srtp_set_remote {} false "AES_CM_128_HMAC_SHA1_32" 30).1 = 0) ∧
    (∃ pr,
      (janus_nosip_srtp_set_remote {} false "AES_CM_128_HMAC_SHA1_32" 30).2.audio_remote_policy =
        some pr ∧
      (strcaseEq "AES_CM_128_HMAC_SHA1_32" "AES_CM_128_HMAC_SHA1_32" = true →
        pr = (SrtpCrypto.aes_cm_128_hmac_sha1_32, SrtpCrypto.aes_cm_128_hmac_sha1_80)) ∧
      (strcaseEq "AES_CM_128_HMAC_SHA1_32" "AES_CM_128_HMAC_SHA1_32" = false →
        pr.1 = pr.2)) :=
  ⟨by decide, by
    have h := C7_sha1_32_rtcp_uses_80.1 {} false "AES_CM_128_HMAC_SHA1_32" 30 (by decide)
    simpa using h⟩

/-! ## C10: local SSRC learned even when the packet is not forwarded -/

/-- C10: in the outbound RTP entry point, a first packet of a medium
that passes the direction-flag and simulcast checks while the stored
local SSRC is 0 has its SSRC learned, even when the packet is then not
forwarded because the medium is not negotiated or its RTP socket is
absent. -/
theorem C10_ssrc_learned_before_forward_check (m : MediaState) (p : RtpPacket)
    (hsend : (if p.video then m.video_send else m.audio_send) = true)
    (hsim : ¬(p.video ∧ m.simulcast_ssrc ≠ 0 ∧ p.ssrc ≠ m.simulcast_ssrc))
    (hz : (if p.video then m.video_ssrc else m.audio_ssrc) = 0) :
    (if p.video then (janus_nosip_incoming_rtp m p).1.video_ssrc
     else (janus_nosip_incoming_rtp m p).1.audio_ssrc) = p.ssrc ∧
    (¬((p.video ∧ m.has_video ∧ m.video_rtp_fd ≠ -1) ∨
       (¬p.video ∧ m.has_audio ∧ m.audio_rtp_fd ≠ -1)) →
      (janus_nosip_incoming_rtp m p).2 = false) := by
  cases hv : p.video with
  | false =>
    simp [hv] at hsend hz
    refine ⟨?_, ?_⟩
    · unfold janus_nosip_incoming_rtp
      simp [hv, hsend, hz]
      split <;> simp
    · intro hnf
      simp [hv] at hnf
      unfold janus_nosip_incoming_rtp
      simp [hv, hsend, hz]
      split <;> simp_all
  | true =>
    simp [hv] at hsend hz
    have hsim2 : ¬(m.simulcast_ssrc ≠ 0 ∧ p.ssrc ≠ m.simulcast_ssrc) := by
      intro hc
      exact hsim ⟨by simp [hv], hc.1, hc.2⟩
    refine ⟨?_, ?_⟩
    · unfold janus_nosip_incoming_rtp
      simp [hv, hsend, hz, hsim2]
      split <;> simp
    · intro hnf
      simp [hv] at hnf
      unfold janus_nosip_incoming_rtp
      simp [hv, hsend, hz, hsim2]
      split <;> simp_all

/-! ## Field bookkeeping for janus_nosip_sdp_process (claims C5, C6) -/

theorem samePorts_refl (m : MediaState) : samePorts m m :=
  ⟨rfl, rfl, rfl, rfl, rfl, rfl⟩

theorem samePorts_trans {a b c : MediaState} (h1 : samePorts a b)
    (h2 : samePorts b c) : samePorts a c := by
  obtain ⟨x1, x2, x3, x4, x5, x6⟩ := h1
  obtain ⟨y1, y2, y3, y4, y5, y6⟩ := h2
  exact ⟨x1.trans y1, x2.trans y2, x3.trans y3, x4.trans y4,
    x5.trans y5, x6.trans y6⟩

theorem set_remote_samePorts (m : MediaState) (video : Bool)
    (profile : String) (len : Nat) :
    samePorts (janus_nosip_srtp_set_remote m video profile len).2 m := by
  unfold janus_nosip_srtp_set_remote samePorts
  split
  · simp
  · split
    · simp
    · split <;> simp

theorem sdpProcessAttr_samePorts (m : MediaState) (mt : SdpMtype)
    (answer : Bool) (a : SdpAttr) :
    samePorts (sdpProcessAttr m mt answer a) m := by
  unfold sdpProcessAttr
  dsimp only
  repeat' split
  all_goals first
    | exact ⟨rfl, rfl, rfl, rfl, rfl, rfl⟩
    | exact set_remote_samePorts m _ _ _

theorem sdpPickCodec_samePorts (m : MediaState) (sdp : JanusSdp) (red : Int)
    (ml : SdpMLine) : samePorts (sdpPickCodec m sdp red ml) m := by
  unfold sdpPickCodec
  dsimp only
  repeat' split
  all_goals exact ⟨rfl, rfl, rfl, rfl, rfl, rfl⟩

theorem attrFold_samePorts (mt : SdpMtype) (answer : Bool) :
    ∀ (l : List SdpAttr) (m : MediaState),
      samePorts (l.foldl (fun acc a => sdpProcessAttr acc mt answer a) m) m := by
  intro l
  induction l with
  | nil => intro m; exact samePorts_refl m
  | cons a t ih =>
    intro m
    exact samePorts_trans (ih _) (sdpProcessAttr_samePorts m mt answer a)

theorem sdpProcessCAddr_samePorts (update : Bool) (st : MediaState × Bool)
    (ml : SdpMLine) : samePorts (sdpProcessCAddr update st ml).1 st.1 := by
  unfold sdpProcessCAddr
  dsimp only
  repeat' split
  all_goals exact ⟨rfl, rfl, rfl, rfl, rfl, rfl⟩

/-- The crypto/rtcp-fb/codec tail of the m-line loop body does not touch
the media flags or remote ports. -/
theorem samePorts_tail (sdp : JanusSdp) (answer : Bool) (red : Int)
    (mt : SdpMtype) (ml : SdpMLine) (m : MediaState) :
    samePorts
      (if answer then
        sdpPickCodec
          (ml.attributes.foldl (fun acc a => sdpProcessAttr acc mt answer a) m)
          sdp red ml
       else ml.attributes.foldl (fun acc a => sdpProcessAttr acc mt answer a) m)
      m := by
  split
  · exact samePorts_trans (sdpPickCodec_samePorts _ sdp red ml)
      (attrFold_samePorts mt answer ml.attributes m)
  · exact attrFold_samePorts mt answer ml.attributes m

/-- On an `m=` line that is neither audio nor video, the loop body only
ORs `require_srtp` with the transport-token test. -/
theorem sdpProcessMLine_other (sdp : JanusSdp) (answer update : Bool)
    (red : Int) (st : MediaState × Bool) (ml : SdpMLine)
    (hm : ml.mtype = SdpMtype.other) :
    sdpProcessMLine sdp answer update red st ml =
      ({ st.1 with require_srtp := st.1.require_srtp ||
          (match ml.proto with
           | some p => strcaseEq p "RTP/SAVP"
           | none => false) }, st.2) := by
  unfold sdpProcessMLine
  simp only [hm]

/-- On an audio or video m-line, the crypto/rtcp-fb/codec tail of the
loop body does not touch the media flags or remote ports: the result
agrees on them with the state right after the port/direction block. -/
theorem sdpProcessMLine_samePorts_port (sdp : JanusSdp) (answer update : Bool)
    (red : Int) (st : MediaState × Bool) (ml : SdpMLine)
    (hmt : ml.mtype ≠ SdpMtype.other) :
    samePorts (sdpProcessMLine sdp answer update red st ml).1
      (sdpProcessPort
        ({ st.1 with require_srtp := st.1.require_srtp ||
            (match ml.proto with
             | some p => strcaseEq p "RTP/SAVP"
             | none => false) }, st.2) ml).1 := by
  unfold sdpProcessMLine
  cases hm : ml.mtype
  case other => exact absurd hm hmt
  case audio =>
    simp only [hm]
    exact samePorts_trans (samePorts_tail sdp answer red _ ml _)
      (sdpProcessCAddr_samePorts update _ ml)
  case video =>
    simp only [hm]
    exact samePorts_trans (samePorts_tail sdp answer red _ ml _)
      (sdpProcessCAddr_samePorts update _ ml)

/-- Equation for the port/direction block on an audio m-line. -/
theorem sdpProcessPort_audio (st : MediaState × Bool) (ml : SdpMLine)
    (hmt : ml.mtype = SdpMtype.audio) :
    sdpProcessPort st ml =
      if ml.port ≠ 0 then
        ({ st.1 with has_audio := true,
                     remote_audio_rtp_port := ml.port,
                     remote_audio_rtcp_port := ml.port + 1,
                     audio_send :=
                       ¬(ml.direction = .sendonly ∨ ml.direction = .inactive) },
         if ml.port ≠ st.1.remote_audio_rtp_port then true else st.2)
      else ({ st.1 with audio_send := false }, st.2) := by
  unfold sdpProcessPort
  rw [hmt]
  simp

/-- Equation for the port/direction block on a video m-line. -/
theorem sdpProcessPort_video (st : MediaState × Bool) (ml : SdpMLine)
    (hmt : ml.mtype = SdpMtype.video) :
    sdpProcessPort st ml =
      if ml.port ≠ 0 then
        ({ st.1 with has_video := true,
                     remote_video_rtp_port := ml.port,
                     remote_video_rtcp_port := ml.port + 1,
                     video_send :=
                       ¬(ml.direction = .sendonly ∨ ml.direction = .inactive) },
         if ml.port ≠ st.1.remote_video_rtp_port then true else st.2)
      else ({ st.1 with video_send := false }, st.2) := by
  unfold sdpProcessPort
  rw [hmt]
  simp

/-- One m-line's effect on `has_audio`: set when the line is audio with a
non-zero port, kept otherwise. -/
theorem sdpProcessMLine_has_audio (sdp : JanusSdp) (answer update : Bool)
    (red : Int) (st : MediaState × Bool) (ml : SdpMLine) :
    (sdpProcessMLine sdp answer update red st ml).1.has_audio =
      (st.1.has_audio || (ml.mtype == SdpMtype.audio && ml.port != 0)) := by
  cases hm : ml.mtype
  case other =>
    rw [sdpProcessMLine_other sdp answer update red st ml hm]
    simp [hm]
  case audio =>
    obtain ⟨h1, -, -, -, -, -⟩ :=
      sdpProcessMLine_samePorts_port sdp answer update red st ml (by simp [hm])
    rw [h1, sdpProcessPort_audio _ ml hm]
    by_cases hp : ml.port = 0
    · simp [hp, hm]
    · simp [hp, hm]
  case video =>
    obtain ⟨h1, -, -, -, -, -⟩ :=
      sdpProcessMLine_samePorts_port sdp answer update red st ml (by simp [hm])
    rw [h1, sdpProcessPort_video _ ml hm]
    by_cases hp : ml.port = 0
    · simp [hp, hm]
    · simp [hp, hm]

/-- One m-line's effect on `has_video`. -/
theorem sdpProcessMLine_has_video (sdp : JanusSdp) (answer update : Bool)
    (red : Int) (st : MediaState × Bool) (ml : SdpMLine) :
    (sdpProcessMLine sdp answer update red st ml).1.has_video =
      (st.1.has_video || (ml.mtype == SdpMtype.video && ml.port != 0)) := by
  cases hm : ml.mtype
  case other =>
    rw [sdpProcessMLine_other sdp answer update red st ml hm]
    simp [hm]
  case audio =>
    obtain ⟨-, h1, -, -, -, -⟩ :=
      sdpProcessMLine_samePorts_port sdp answer update red st ml (by simp [hm])
    rw [h1, sdpProcessPort_audio _ ml hm]
    by_cases hp : ml.port = 0
    · simp [hp, hm]
    · simp [hp, hm]
  case video =>
    obtain ⟨-, h1, -, -, -, -⟩ :=
      sdpProcessMLine_samePorts_port sdp answer update red st ml (by simp [hm])
    rw [h1, sdpProcessPort_video _ ml hm]
    by_cases hp : ml.port = 0
    · simp [hp, hm]
    · simp [hp, hm]

/-- One m-line's effect on the remote audio ports. -/
theorem sdpProcessMLine_audio_ports (sdp : JanusSdp) (answer update : Bool)
    (red : Int) (st : MediaState × Bool) (ml : SdpMLine) :
    (sdpProcessMLine sdp answer update red st ml).1.remote_audio_rtp_port =
      (if (ml.mtype == SdpMtype.audio && ml.port != 0) = true then ml.port
       else st.1.remote_audio_rtp_port) ∧
    (sdpProcessMLine sdp answer update red st ml).1.remote_audio_rtcp_port =
      (if (ml.mtype == SdpMtype.audio && ml.port != 0) = true then ml.port + 1
       else st.1.remote_audio_rtcp_port) := by
  cases hm : ml.mtype
  case other =>
    rw [sdpProcessMLine_other sdp answer update red st ml hm]
    simp [hm]
  case audio =>
    obtain ⟨-, -, h1, h2, -, -⟩ :=
      sdpProcessMLine_samePorts_port sdp answer update red st ml (by simp [hm])
    rw [h1, h2, sdpProcessPort_audio _ ml hm]
    by_cases hp : ml.port = 0
    · simp [hp, hm]
    · simp [hp, hm]
  case video =>
    obtain ⟨-, -, h1, h2, -, -⟩ :=
      sdpProcessMLine_samePorts_port sdp answer update red st ml (by simp [hm])
    rw [h1, h2, sdpProcessPort_video _ ml hm]
    by_cases hp : ml.port = 0
    · simp [hp, hm]
    · simp [hp, hm]

/-- One m-line's effect on the remote video ports. -/
theorem sdpProcessMLine_video_ports (sdp : JanusSdp) (answer update : Bool)
    (red : Int) (st : MediaState × Bool) (ml : SdpMLine) :
    (sdpProcessMLine sdp answer update red st ml).1.remote_video_rtp_port =
      (if (ml.mtype == SdpMtype.video && ml.port != 0) = true then ml.port
       else st.1.remote_video_rtp_port) ∧
    (sdpProcessMLine sdp answer update red st ml).1.remote_video_rtcp_port =
      (if (ml.mtype == SdpMtype.video && ml.port != 0) = true then ml.port + 1
       else st.1.remote_video_rtcp_port) := by
  cases hm : ml.mtype
  case other =>
    rw [sdpProcessMLine_other sdp answer update red st ml hm]
    simp [hm]
  case audio =>
    obtain ⟨-, -, -, -, h1, h2⟩ :=
      sdpProcessMLine_samePorts_port sdp answer update red st ml (by simp [hm])
    rw [h1, h2, sdpProcessPort_audio _ ml hm]
    by_cases hp : ml.port = 0
    · simp [hp, hm]
    · simp [hp, hm]
  case video =>
    obtain ⟨-, -, -, -, h1, h2⟩ :=
      sdpProcessMLine_samePorts_port sdp answer update red st ml (by simp [hm])
    rw [h1, h2, sdpProcessPort_video _ ml hm]
    by_cases hp : ml.port = 0
    · simp [hp, hm]
    · simp [hp, hm]

/-- The session-level connection-address block does not touch flags or
ports. -/
theorem sdpProcessSessionCAddr_samePorts (update : Bool) (m : MediaState)
    (sdp : JanusSdp) : samePorts (sdpProcessSessionCAddr update m sdp).1 m := by
  unfold sdpProcessSessionCAddr
  dsimp only
  repeat' split
  all_goals exact ⟨rfl, rfl, rfl, rfl, rfl, rfl⟩

theorem sdpProcessFinish_has_audio (u : Bool) (st : MediaState × Bool) :
    (sdpProcessFinish u st).has_audio = st.1.has_audio := by
  unfold sdpProcessFinish
  split <;> rfl

theorem sdpProcessFinish_has_video (u : Bool) (st : MediaState × Bool) :
    (sdpProcessFinish u st).has_video = st.1.has_video := by
  unfold sdpProcessFinish
  split <;> rfl

/-- The `has_audio` flag after `janus_nosip_sdp_process`: ORed with
"some audio m-line has a non-zero port", never cleared. -/
theorem sdpProcess_has_audio (m : MediaState) (sdp : JanusSdp)
    (answer update : Bool) :
    (janus_nosip_sdp_process m sdp answer update).1.has_audio =
      (m.has_audio ||
        sdp.m_lines.any (fun ml => ml.mtype == SdpMtype.audio && ml.port != 0)) := by
  have hfold : ∀ (lines : List SdpMLine) (st : MediaState × Bool),
      (lines.foldl
        (sdpProcessMLine sdp answer update (if answer then sdp.opusredPtScan else -1))
        st).1.has_audio =
      (st.1.has_audio ||
        lines.any (fun ml => ml.mtype == SdpMtype.audio && ml.port != 0)) := by
    intro lines
    induction lines with
    | nil => intro st; simp
    | cons ml t ih =>
      intro st
      simp only [List.foldl_cons, List.any_cons]
      rw [ih, sdpProcessMLine_has_audio]
      simp [Bool.or_assoc]
  obtain ⟨hca, -, -, -, -, -⟩ := sdpProcessSessionCAddr_samePorts update m sdp
  unfold janus_nosip_sdp_process
  dsimp only
  rw [sdpProcessFinish_has_audio, hfold, hca]

/-- The `has_video` flag after `janus_nosip_sdp_process`. -/
theorem sdpProcess_has_video (m : MediaState) (sdp : JanusSdp)
    (answer update : Bool) :
    (janus_nosip_sdp_process m sdp answer update).1.has_video =
      (m.has_video ||
        sdp.m_lines.any (fun ml => ml.mtype == SdpMtype.video && ml.port != 0)) := by
  have hfold : ∀ (lines : List SdpMLine) (st : MediaState × Bool),
      (lines.foldl
        (sdpProcessMLine sdp answer update (if answer then sdp.opusredPtScan else -1))
        st).1.has_video =
      (st.1.has_video ||
        lines.any (fun ml => ml.mtype == SdpMtype.video && ml.port != 0)) := by
    intro lines
    induction lines with
    | nil => intro st; simp
    | cons ml t ih =>
      intro st
      simp only [List.foldl_cons, List.any_cons]
      rw [ih, sdpProcessMLine_has_video]
      simp [Bool.or_assoc]
  obtain ⟨-, hca, -, -, -, -⟩ := sdpProcessSessionCAddr_samePorts update m sdp
  unfold janus_nosip_sdp_process
  dsimp only
  rw [sdpProcessFinish_has_video, hfold, hca]

theorem sdpProcessFinish_audioPortsOk (u : Bool) (st : MediaState × Bool) :
    audioPortsOk (sdpProcessFinish u st) ↔ audioPortsOk st.1 := by
  unfold sdpProcessFinish
  split <;> exact Iff.rfl

theorem sdpProcessFinish_videoPortsOk (u : Bool) (st : MediaState × Bool) :
    videoPortsOk (sdpProcessFinish u st) ↔ videoPortsOk st.1 := by
  unfold sdpProcessFinish
  split <;> exact Iff.rfl

/-- After `janus_nosip_sdp_process` of a description with an audio
m-line with non-zero port, the stored remote audio RTP port is positive
and the RTCP port is one above it. -/
theorem sdpProcess_audio_ports (m : MediaState) (sdp : JanusSdp)
    (answer update : Bool)
    (h : sdp.m_lines.any (fun ml => ml.mtype == SdpMtype.audio && ml.port != 0) = true) :
    audioPortsOk (janus_nosip_sdp_process m sdp answer update).1 := by
  have hfold : ∀ (lines : List SdpMLine) (st : MediaState × Bool),
      ((lines.any (fun ml => ml.mtype == SdpMtype.audio && ml.port != 0) = true) ∨
        audioPortsOk st.1) →
      audioPortsOk (lines.foldl
        (sdpProcessMLine sdp answer update (if answer then sdp.opusredPtScan else -1))
        st).1 := by
    intro lines
    induction lines with
    | nil =>
      intro st hst
      rcases hst with hst | hst
      · simp at hst
      · exact hst
    | cons ml t ih =>
      intro st hst
      simp only [List.foldl_cons]
      obtain ⟨hp1, hp2⟩ := sdpProcessMLine_audio_ports sdp answer update
        (if answer then sdp.opusredPtScan else -1) st ml
      by_cases hc : (ml.mtype == SdpMtype.audio && ml.port != 0) = true
      · refine ih _ (Or.inr ?_)
        rw [audioPortsOk, hp1, hp2, if_pos hc, if_pos hc]
        have : ml.port ≠ 0 := by
          rcases Bool.and_eq_true .. |>.mp hc with ⟨-, hb⟩
          simpa using hb
        exact ⟨Nat.pos_of_ne_zero this, rfl⟩
      · rcases hst with hst | hst
        · simp only [List.any_cons, Bool.or_eq_true] at hst
          rcases hst with hst | hst
          · exact absurd hst hc
          · exact ih _ (Or.inl hst)
        · refine ih _ (Or.inr ?_)
          rw [audioPortsOk, hp1, hp2, if_neg hc, if_neg hc]
          exact hst
  unfold janus_nosip_sdp_process
  dsimp only
  rw [sdpProcessFinish_audioPortsOk]
  exact hfold sdp.m_lines (sdpProcessSessionCAddr update m sdp) (Or.inl h)

/-- After `janus_nosip_sdp_process` of a description with a video m-line
with non-zero port, the stored remote video ports are consistent. -/
theorem sdpProcess_video_ports (m : MediaState) (sdp : JanusSdp)
    (answer update : Bool)
    (h : sdp.m_lines.any (fun ml => ml.mtype == SdpMtype.video && ml.port != 0) = true) :
    videoPortsOk (janus_nosip_sdp_process m sdp answer update).1 := by
  have hfold : ∀ (lines : List SdpMLine) (st : MediaState × Bool),
      ((lines.any (fun ml => ml.mtype == SdpMtype.video && ml.port != 0) = true) ∨
        videoPortsOk st.1) →
      videoPortsOk (lines.foldl
        (sdpProcessMLine sdp answer update (if answer then sdp.opusredPtScan else -1))
        st).1 := by
    intro lines
    induction lines with
    | nil =>
      intro st hst
      rcases hst with hst | hst
      · simp at hst
      · exact hst
    | cons ml t ih =>
      intro st hst
      simp only [List.foldl_cons]
      obtain ⟨hp1, hp2⟩ := sdpProcessMLine_video_ports sdp answer update
        (if answer then sdp.opusredPtScan else -1) st ml
      by_cases hc : (ml.mtype == SdpMtype.video && ml.port != 0) = true
      · refine ih _ (Or.inr ?_)
        rw [videoPortsOk, hp1, hp2, if_pos hc, if_pos hc]
        have : ml.port ≠ 0 := by
          rcases Bool.and_eq_true .. |>.mp hc with ⟨-, hb⟩
          simpa using hb
        exact ⟨Nat.pos_of_ne_zero this, rfl⟩
      · rcases hst with hst | hst
        · simp only [List.any_cons, Bool.or_eq_true] at hst
          rcases hst with hst | hst
          · exact absurd hst hc
          · exact ih _ (Or.inl hst)
        · refine ih _ (Or.inr ?_)
          rw [videoPortsOk, hp1, hp2, if_neg hc, if_neg hc]
          exact hst
  unfold janus_nosip_sdp_process
  dsimp only
  rw [sdpProcessFinish_videoPortsOk]
  exact hfold sdp.m_lines (sdpProcessSessionCAddr update m sdp) (Or.inl h)

/-- Witness for C10: an audio packet on a session whose audio SSRC is
unset, with `has_audio` false and no socket, learns SSRC 1234 and is not
forwarded. -/
theorem C10_ssrc_learned_before_forward_check_witness :
    ((if false then MediaState.video_send {} else MediaState.audio_send {}) = true) ∧
    ((janus_nosip_incoming_rtp {} { video := false, ssrc := 1234 }).1.audio_ssrc = 1234 ∧
     (janus_nosip_incoming_rtp {} { video := false, ssrc := 1234 }).2 = false) := by
  have h := C10_ssrc_learned_before_forward_check {} { video := false, ssrc := 1234 }
    (by decide) (by decide) (by decide)
  exact ⟨by decide, by simpa using h.1, h.2 (by decide)⟩

/-! ## C5: has_audio / has_video versus the section port -/

/-- C5 amended: processing sets `has_m` to true when an m-line of that
medium has a non-zero port and leaves it unchanged otherwise (`has_m
after = has_m before OR some non-zero-port section`); a zero-port
section leaves the flag as it was, rather than forcing it to equal
"port is non-zero". -/
theorem C5_has_media_flag_sticky (m : MediaState) (sdp : JanusSdp)
    (answer update : Bool) :
    (janus_nosip_sdp_process m sdp answer update).1.has_audio =
      (m.has_audio ||
        sdp.m_lines.any (fun ml => ml.mtype == SdpMtype.audio && ml.port != 0)) ∧
    (janus_nosip_sdp_process m sdp answer update).1.has_video =
      (m.has_video ||
        sdp.m_lines.any (fun ml => ml.mtype == SdpMtype.video && ml.port != 0)) :=
  ⟨sdpProcess_has_audio m sdp answer update,
   sdpProcess_has_video m sdp answer update⟩

/-- C5 counterexample: a session whose `has_audio` is already true
processes a description whose only audio section has port 0; `has_audio`
stays true, so it does not equal the predicate "the section's port is
non-zero" (which is false here). -/
theorem C5_counterexample :
    sdpAudioZero.m_lines.map SdpMLine.port = [0] ∧
    (janus_nosip_sdp_process { has_audio := true } sdpAudioZero false false).1.has_audio
      = true ∧
    decide ((0 : Nat) ≠ 0) = false := by
  refine ⟨rfl, ?_, by decide⟩
  rfl

/-! ## C6: stored remote ports after process -/

/-- Any run of `gpStartMedia` only rewrites the `ready` flag. -/
theorem gpStartMedia_fields (s : Session) (c : GPChecked) (t : Bool) :
    ∃ b, gpStartMedia s c t = { s with media := { s.media with ready := b } } := by
  unfold gpStartMedia
  split
  · split
    · exact ⟨false, rfl⟩
    · exact ⟨true, rfl⟩
  · exact ⟨s.media.ready, rfl⟩

/-- A successful `process` body leaves the media state exactly as
`janus_nosip_sdp_process` produced it. -/
theorem gpProcess_ok (s1 : Session) (c : GPChecked) (sdp : JanusSdp)
    (s2 : Session) (res : GPResult)
    (h : gpProcess s1 c sdp = (s2, .ok res)) :
    s2.media = (janus_nosip_sdp_process s1.media sdp (!c.offer) c.sdp_update).1 := by
  unfold gpProcess at h
  dsimp only at h
  split at h
  · simp at h
  · split at h
    · simp at h
    · split at h
      · simp at h
      · injection h with h1 h2
        rw [← h1]

/-- C6: after every successful `process` of a remote description, for
each medium present with a non-zero port, the stored remote RTP port is
positive and the stored remote RTCP port is one above it (the model
carries no `a=rtcp` information at all: the code never parses it). -/
theorem C6_remote_ports (s : Session) (msg : SdpMsg) (e2ee : Bool)
    (srtpReq srtpProfileReq : Option String) (sim : Option SimulcastSsrcs)
    (env : AllocEnv) (sdpIp localIp : Option String) (threadOk : Bool)
    (sdp : JanusSdp) (res : GPResult)
    (hparsed : msg.parsed = some sdp)
    (hok : (janus_nosip_handler_gp s false msg e2ee srtpReq srtpProfileReq sim
      env sdpIp localIp threadOk).2.2 = Except.ok res) :
    ((sdp.m_lines.any fun ml => ml.mtype == SdpMtype.audio && ml.port != 0) = true →
      audioPortsOk (janus_nosip_handler_gp s false msg e2ee srtpReq srtpProfileReq
        sim env sdpIp localIp threadOk).1.media) ∧
    ((sdp.m_lines.any fun ml => ml.mtype == SdpMtype.video && ml.port != 0) = true →
      videoPortsOk (janus_nosip_handler_gp s false msg e2ee srtpReq srtpProfileReq
        sim env sdpIp localIp threadOk).1.media) := by
  unfold janus_nosip_handler_gp at hok ⊢
  cases hv : gpValidate s.media.ready false msg e2ee srtpReq with
  | error e =>
    rw [hv] at hok
    simp at hok
  | ok c =>
    rw [hv] at hok
    dsimp only at hok ⊢
    rcases hss : gpSrtpState s false c srtpProfileReq msg with ⟨s1, r1⟩
    cases r1 with
    | error e =>
      rw [hss] at hok
      simp at hok
    | ok u =>
      cases u
      rw [hss] at hok
      dsimp only at hok ⊢
      rw [hparsed] at hok ⊢
      simp only [Bool.false_eq_true, if_false] at hok ⊢
      rcases hgp : gpProcess s1 c sdp with ⟨s2, r2⟩
      cases r2 with
      | error e =>
        rw [hgp] at hok
        simp at hok
      | ok res2 =>
        rw [hgp] at hok
        dsimp only at hok ⊢
        obtain ⟨b, hb⟩ := gpStartMedia_fields s2 c threadOk
        rw [hb]
        have hmedia := gpProcess_ok s1 c sdp s2 res2 hgp
        constructor
        · intro ha
          have := sdpProcess_audio_ports s1.media sdp (!c.offer) c.sdp_update ha
          simp only [audioPortsOk] at this ⊢
          rw [show ({ s2 with media := { s2.media with ready := b } } : Session).media.remote_audio_rtp_port
                = s2.media.remote_audio_rtp_port from rfl,
              show ({ s2 with media := { s2.media with ready := b } } : Session).media.remote_audio_rtcp_port
                = s2.media.remote_audio_rtcp_port from rfl,
              hmedia]
          exact this
        · intro ha
          have := sdpProcess_video_ports s1.media sdp (!c.offer) c.sdp_update ha
          simp only [videoPortsOk] at this ⊢
          rw [show ({ s2 with media := { s2.media with ready := b } } : Session).media.remote_video_rtp_port
                = s2.media.remote_video_rtp_port from rfl,
              show ({ s2 with media := { s2.media with ready := b } } : Session).media.remote_video_rtcp_port
                = s2.media.remote_video_rtcp_port from rfl,
              hmedia]
          exact this

/-- Witness for C6: a fresh session processes an offer with audio 16000
and video 16002, the request succeeds, and the stored remote port pairs
are (16000, 16001) and (16002, 16003). -/
theorem C6_remote_ports_witness :
    ((janus_nosip_handler_gp {} false msgProcessAV false none none none
      envBindAll none none true).2.2 = Except.ok { event := "processed" }) ∧
    audioPortsOk (janus_nosip_handler_gp {} false msgProcessAV false none none none
      envBindAll none none true).1.media ∧
    videoPortsOk (janus_nosip_handler_gp {} false msgProcessAV false none none none
      envBindAll none none true).1.media := by
  have h := C6_remote_ports {} msgProcessAV false none none none envBindAll
    none none true sdpAV { event := "processed" } rfl (by rfl)
  exact ⟨by rfl, h.1 (by decide), h.2 (by decide)⟩

/-! ## C9: recorder-open failure and the recording response -/

/-- C9 counterexample: a `recording` start request that selects the
user's audio, whose recorder fails to open, is still answered with the
`recordingupdated` event, not with RECORDING_ERROR (449): the failure is
only logged and the session is unchanged. -/
theorem C9_counterexample :
    janus_nosip_handler_recording {} "start" (some true) none none none
      { arcOk := false } = ({}, .ok "recordingupdated") ∧
    (janus_nosip_handler_recording {} "start" (some true) none none none
      { arcOk := false }).2 ≠
      Except.error JANUS_NOSIP_ERROR_RECORDING_ERROR :=
  ⟨rfl, by decide⟩

/-- C9 amended: a failure to open a recorder during a `recording` start
request is only logged: provided at least one medium is selected the
request still answers `recordingupdated`, and the recorder slot whose
creation failed is left as it was; RECORDING_ERROR (449) is returned
exactly when the action is valid but no medium is selected. -/
theorem C9_recording_open_failure_logged_only (s : Session)
    (audio video peer_audio peer_video : Option Bool) (rec : RecOutcomes) :
    ((audio.getD false || video.getD false || peer_audio.getD false ||
        peer_video.getD false) = true →
      (janus_nosip_handler_recording s "start" audio video peer_audio
        peer_video rec).2 = .ok "recordingupdated") ∧
    ((audio.getD false || video.getD false || peer_audio.getD false ||
        peer_video.getD false) = false →
      (janus_nosip_handler_recording s "start" audio video peer_audio
        peer_video rec).2 = .error JANUS_NOSIP_ERROR_RECORDING_ERROR) ∧
    (rec.arcOk = false →
      (janus_nosip_handler_recording s "start" audio video peer_audio
        peer_video rec).1.arc = s.arc) ∧
    (rec.vrcOk = false →
      (janus_nosip_handler_recording s "start" audio video peer_audio
        peer_video rec).1.vrc = s.vrc) ∧
    (rec.arcPeerOk = false →
      (janus_nosip_handler_recording s "start" audio video peer_audio
        peer_video rec).1.arc_peer = s.arc_peer) ∧
    (rec.vrcPeerOk = false →
      (janus_nosip_handler_recording s "start" audio video peer_audio
        peer_video rec).1.vrc_peer = s.vrc_peer) := by
  have h1 : strcaseEq "start" "start" = true := by decide
  have h2 : strcaseEq "start" "stop" = false := by decide
  refine ⟨?_, ?_, ?_, ?_, ?_, ?_⟩ <;> intro h
  · rcases Bool.or_eq_true .. |>.mp h with h | h
    · rcases Bool.or_eq_true .. |>.mp h with h | h
      · rcases Bool.or_eq_true .. |>.mp h with h | h
        · simp [janus_nosip_handler_recording, h1, h2, h]
        · simp [janus_nosip_handler_recording, h1, h2, h]
      · simp [janus_nosip_handler_recording, h1, h2, h]
    · simp [janus_nosip_handler_recording, h1, h2, h]
  · simp only [Bool.or_eq_false_iff] at h
    obtain ⟨⟨⟨ha, hv⟩, hpa⟩, hpv⟩ := h
    simp [janus_nosip_handler_recording, h1, h2, ha, hv, hpa, hpv]
  · simp [janus_nosip_handler_recording, h1, h2, h,
      apply_ite (Prod.fst : Session × Except Nat String → Session),
      apply_ite Session.arc]
  · simp [janus_nosip_handler_recording, h1, h2, h,
      apply_ite (Prod.fst : Session × Except Nat String → Session),
      apply_ite Session.vrc]
  · simp [janus_nosip_handler_recording, h1, h2, h,
      apply_ite (Prod.fst : Session × Except Nat String → Session),
      apply_ite Session.arc_peer]
  · simp [janus_nosip_handler_recording, h1, h2, h,
      apply_ite (Prod.fst : Session × Except Nat String → Session),
      apply_ite Session.vrc_peer]

/-- Witness for C9's amended statement at a concrete input: user-audio
selected, its recorder fails to open, the answer is `recordingupdated`
and the audio recorder slot stays empty. -/
theorem C9_recording_open_failure_logged_only_witness :
    ((some true : Option Bool).getD false || (none : Option Bool).getD false ||
      (none : Option Bool).getD false || (none : Option Bool).getD false) = true ∧
    (janus_nosip_handler_recording {} "start" (some true) none none none
      { arcOk := false }).2 = .ok "recordingupdated" ∧
    (janus_nosip_handler_recording {} "start" (some true) none none none
      { arcOk := false }).1.arc = Session.arc {} := by
  have h := C9_recording_open_failure_logged_only {} (some true) none none none
    { arcOk := false }
  exact ⟨by decide, h.1 (by decide), h.2.2.1 (by decide)⟩

/-! ## C8: has_srtp_local on a generate answer -/

theorem set_local_has_srtp_local (m : MediaState) (video : Bool) :
    (janus_nosip_srtp_set_local m video).2.has_srtp_local = m.has_srtp_local := by
  unfold janus_nosip_srtp_set_local
  dsimp only
  repeat' split
  all_goals first | rfl | (cases video <;> rfl)

theorem sdpPickCodec_has_srtp_local (m : MediaState) (sdp : JanusSdp)
    (red : Int) (ml : SdpMLine) :
    (sdpPickCodec m sdp red ml).has_srtp_local = m.has_srtp_local := by
  unfold sdpPickCodec
  dsimp only
  repeat' split
  all_goals rfl

theorem manipMLine_has_srtp_local (sdp : JanusSdp) (answer : Bool) (red : Int)
    (sdpIp localIp : Option String) (m : MediaState) (ml : SdpMLine) :
    (manipMLine sdp answer red sdpIp localIp m ml).1.has_srtp_local =
      m.has_srtp_local := by
  unfold manipMLine
  dsimp only
  repeat' split
  all_goals simp only [sdpPickCodec_has_srtp_local, set_local_has_srtp_local]

theorem manipulate_has_srtp_local (m : MediaState) (sdp : JanusSdp)
    (answer : Bool) (sdpIp localIp : Option String) :
    (janus_nosip_sdp_manipulate m sdp answer sdpIp localIp).1.has_srtp_local =
      m.has_srtp_local := by
  unfold janus_nosip_sdp_manipulate
  dsimp only
  refine foldl_preserve
    (fun acc ml =>
      ((manipMLine sdp answer (if answer then sdp.opusredPtScan else -1)
          sdpIp localIp acc.1 ml).1,
       (manipMLine sdp answer (if answer then sdp.opusredPtScan else -1)
          sdpIp localIp acc.1 ml).2 :: acc.2))
    (fun acc => acc.1.has_srtp_local = m.has_srtp_local)
    ?_ sdp.m_lines (m, []) rfl
  intro acc ml hp
  simp only [manipMLine_has_srtp_local]
  exact hp

theorem applySimulcast_has_srtp_local (m : MediaState)
    (sim : Option SimulcastSsrcs) :
    (applySimulcast m sim).has_srtp_local = m.has_srtp_local := by
  unfold applySimulcast
  repeat' split
  all_goals rfl

theorem allocLocalMedium_has_srtp_local (video : Bool) (m : MediaState)
    (env : AllocEnv) :
    (allocLocalMedium video m env).2.1.has_srtp_local = m.has_srtp_local := by
  unfold allocLocalMedium
  dsimp only
  repeat' split
  all_goals first | rfl | (cases video <;> rfl)

theorem allocPortsReset_has_srtp_local (u : Bool) (m : MediaState) :
    (allocPortsReset u m).has_srtp_local = m.has_srtp_local := by
  unfold allocPortsReset
  split <;> rfl

theorem allocate_local_ports_has_srtp_local (m : MediaState) (u : Bool)
    (env : AllocEnv) :
    (janus_nosip_allocate_local_ports m u env).2.1.has_srtp_local =
      m.has_srtp_local := by
  unfold janus_nosip_allocate_local_ports
  dsimp only
  split
  next b1 m1 env1 heq1 =>
    have h1 := allocLocalMedium_has_srtp_local false (allocPortsReset u m) env
    rw [heq1] at h1
    dsimp only at h1 ⊢
    rw [h1, allocPortsReset_has_srtp_local]
  next b1 m1 env1 heq1 =>
    have h1 := allocLocalMedium_has_srtp_local false (allocPortsReset u m) env
    rw [heq1] at h1
    dsimp only at h1
    split
    next b2 m2 env2 heq2 =>
      have h2 := allocLocalMedium_has_srtp_local true m1 env1
      rw [heq2] at h2
      dsimp only at h2 ⊢
      rw [h2, h1, allocPortsReset_has_srtp_local]
    next b2 m2 env2 heq2 =>
      have h2 := allocLocalMedium_has_srtp_local true m1 env1
      rw [heq2] at h2
      dsimp only at h2
      split
      · dsimp only
        rw [h2, h1, allocPortsReset_has_srtp_local]
      · dsimp only
        rw [h2, h1, allocPortsReset_has_srtp_local]

theorem gpGenerateFlags_has_srtp_local (s : Session) (msg : SdpMsg) :
    (gpGenerateFlags s msg).media.has_srtp_local = s.media.has_srtp_local := by
  unfold gpGenerateFlags
  dsimp only
  split <;> split <;> rfl

/-- A successful `generate` body does not change `has_srtp_local`. -/
theorem gpGenerate_ok_has_srtp_local (s1 : Session) (c : GPChecked)
    (msg : SdpMsg) (sdp : JanusSdp) (sim : Option SimulcastSsrcs)
    (env : AllocEnv) (sdpIp localIp : Option String) (s2 : Session)
    (env2 : AllocEnv) (res : GPResult)
    (h : gpGenerate s1 c msg sdp sim env sdpIp localIp = (s2, env2, .ok res)) :
    s2.media.has_srtp_local = s1.media.has_srtp_local := by
  unfold gpGenerate at h
  dsimp only at h
  split at h
  · simp at h
  · injection h with h1 h2
    rw [← h1]
    show (applySimulcast _ sim).has_srtp_local = s1.media.has_srtp_local
    rw [applySimulcast_has_srtp_local]
    show (janus_nosip_sdp_manipulate _ sdp false sdpIp localIp).1.has_srtp_local
      = s1.media.has_srtp_local
    rw [manipulate_has_srtp_local]
    show (janus_nosip_allocate_local_ports _ c.sdp_update env).2.1.has_srtp_local
      = s1.media.has_srtp_local
    rw [allocate_local_ports_has_srtp_local]
    exact gpGenerateFlags_has_srtp_local s1 msg

/-- What a successful validation stage says about the request. -/
theorem gpValidate_ok (ready generate : Bool) (msg : SdpMsg) (e2ee : Bool)
    (srtpReq : Option String) (c : GPChecked)
    (h : gpValidate ready generate msg e2ee srtpReq = .ok c) :
    (∀ ty, msg.sdpType = some ty → c.offer = strcaseEq ty "offer") ∧
    c.do_srtp = srtpSelectsSdes srtpReq := by
  unfold gpValidate at h
  dsimp only at h
  split at h
  · simp at h
  · split at h
    · simp at h
    next ty0 hty0 =>
      split at h
      · simp at h
      · split at h
        · simp at h
        · split at h
          · simp at h
          · split at h
            · injection h with h1
              rw [← h1]
              refine ⟨?_, by simp [srtpSelectsSdes]⟩
              intro ty hty
              rw [hty0] at hty
              injection hty with hty
              rw [hty]
            next t ht =>
              split at h
              · injection h with h1
                rw [← h1]
                constructor
                · intro ty hty
                  rw [hty0] at hty
                  injection hty with hty
                  rw [hty]
                · simp only [srtpSelectsSdes]
                  simp_all
              · split at h
                · injection h with h1
                  rw [← h1]
                  constructor
                  · intro ty hty
                    rw [hty0] at hty
                    injection hty with hty
                    rw [hty]
                  · simp only [srtpSelectsSdes]
                    simp_all
                · simp at h

/-- A successful SRTP stage on a generate answer sets `has_srtp_local`
to `do_srtp OR has_srtp_remote`. -/
theorem gpSrtpState_answer_ok (s : Session) (c : GPChecked)
    (p : Option String) (msg : SdpMsg) (s1 : Session)
    (hoff : c.offer = false)
    (h : gpSrtpState s true c p msg = (s1, .ok ())) :
    s1.media.has_srtp_local = (c.do_srtp || s.media.has_srtp_remote) := by
  unfold gpSrtpState at h
  rw [hoff] at h
  simp only [Bool.false_eq_true, false_and, if_false, not_false_eq_true,
    if_true, Bool.not_false] at h
  split at h
  · simp at h
  · split at h
    · split at h
      · simp at h
      · injection h with h1 h2
        rw [← h1]
        rfl
    · injection h with h1 h2
      rw [← h1]
      rfl

/-- C8 counterexample: a `generate` answer with `srtp:"sdes_mandatory"`
(which selects SDES) on a session without remote SRTP fails TOO_STRICT
and leaves `has_srtp_local` false: the flag is not set to true even
though the request's srtp field selected SDES. -/
theorem C8_counterexample :
    (janus_nosip_handler_gp {} true msgGenerateAnswer false
      (some "sdes_mandatory") none none envBindAll none none true).2.2 =
      Except.error JANUS_NOSIP_ERROR_TOO_STRICT ∧
    (janus_nosip_handler_gp {} true msgGenerateAnswer false
      (some "sdes_mandatory") none none envBindAll none none true).1.media.has_srtp_local
      = false ∧
    srtpSelectsSdes (some "sdes_mandatory") = true :=
  ⟨rfl, rfl, by decide⟩

/-- C8 amended: on a `generate` request whose attached description is an
answer and which succeeds, `has_srtp_local` ends up true exactly when
the request's `srtp` field selected SDES or `has_srtp_remote` was
already true; in particular, when the request omits `srtp`,
`has_srtp_local` ends up equal to `has_srtp_remote`.  (When the request
fails — e.g. TOO_STRICT — the flag is not assigned.) -/
theorem C8_generate_answer_has_srtp_local (s : Session) (msg : SdpMsg)
    (e2ee : Bool) (srtpReq srtpProfileReq : Option String)
    (sim : Option SimulcastSsrcs) (env : AllocEnv)
    (sdpIp localIp : Option String) (threadOk : Bool) (ty : String)
    (res : GPResult)
    (hty : msg.sdpType = some ty) (hoff : strcaseEq ty "offer" = false)
    (hok : (janus_nosip_handler_gp s true msg e2ee srtpReq srtpProfileReq sim
      env sdpIp localIp threadOk).2.2 = Except.ok res) :
    (janus_nosip_handler_gp s true msg e2ee srtpReq srtpProfileReq sim
      env sdpIp localIp threadOk).1.media.has_srtp_local =
      (srtpSelectsSdes srtpReq || s.media.has_srtp_remote) ∧
    (srtpReq = none →
      (janus_nosip_handler_gp s true msg e2ee srtpReq srtpProfileReq sim
        env sdpIp localIp threadOk).1.media.has_srtp_local =
        s.media.has_srtp_remote) := by
  unfold janus_nosip_handler_gp at hok ⊢
  cases hv : gpValidate s.media.ready true msg e2ee srtpReq with
  | error e =>
    rw [hv] at hok
    simp at hok
  | ok c =>
    rw [hv] at hok
    dsimp only at hok ⊢
    obtain ⟨hcoffer, hcdo⟩ := gpValidate_ok _ _ _ _ _ _ hv
    have hco : c.offer = false := by rw [hcoffer ty hty, hoff]
    rcases hss : gpSrtpState s true c srtpProfileReq msg with ⟨s1, r1⟩
    cases r1 with
    | error e =>
      rw [hss] at hok
      simp at hok
    | ok u =>
      cases u
      rw [hss] at hok
      dsimp only at hok ⊢
      cases hp : msg.parsed with
      | none =>
        rw [hp] at hok
        simp at hok
      | some parsed_sdp =>
        rw [hp] at hok
        dsimp only at hok ⊢
        simp only [if_pos rfl] at hok ⊢
        rcases hgg : gpGenerate s1 c msg parsed_sdp sim env sdpIp localIp
          with ⟨s2, env2, r2⟩
        cases r2 with
        | error e =>
          rw [hgg] at hok
          simp at hok
        | ok res2 =>
          rw [hgg] at hok
          dsimp only at hok ⊢
          obtain ⟨b, hb⟩ := gpStartMedia_fields s2 c threadOk
          rw [hb]
          have hlocal : s2.media.has_srtp_local = s1.media.has_srtp_local :=
            gpGenerate_ok_has_srtp_local s1 c msg parsed_sdp sim env sdpIp
              localIp s2 env2 res2 hgg
          have hs1 : s1.media.has_srtp_local =
              (c.do_srtp || s.media.has_srtp_remote) :=
            gpSrtpState_answer_ok s c srtpProfileReq msg s1 hco hss
          constructor
          · show s2.media.has_srtp_local = _
            rw [hlocal, hs1, hcdo]
          · intro hnone
            show s2.media.has_srtp_local = _
            rw [hlocal, hs1, hcdo, hnone]
            simp [srtpSelectsSdes]

/-- Witness for C8's amended statement: a `generate` answer without an
`srtp` field on a session with remote SRTP installed succeeds and ends
with `has_srtp_local = true = has_srtp_remote`. -/
theorem C8_generate_answer_has_srtp_local_witness :
    msgGenerateAnswer.sdpType = some "answer" ∧
    ((janus_nosip_handler_gp sessRemoteSrtp true msgGenerateAnswer false none
      none none envBindAll none none true).2.2 =
      Except.ok { event := "generated", resType := some "answer" }) ∧
    (janus_nosip_handler_gp sessRemoteSrtp true msgGenerateAnswer false none
      none none envBindAll none none true).1.media.has_srtp_local = true := by
  have h := C8_generate_answer_has_srtp_local sessRemoteSrtp msgGenerateAnswer
    false none none none envBindAll none none true "answer"
    { event := "generated", resType := some "answer" } rfl (by decide) (by rfl)
  refine ⟨rfl, by rfl, ?_⟩
  rw [h.2 rfl]
  rfl

/-! ## C2: session-state mutation on request errors -/

/-- C2 counterexample: a `process` request with `srtp:"sdes_mandatory"`
on a fresh session fails with TOO_STRICT, yet the session's remote
audio RTP port has been mutated to the port learned from the rejected
description (the `goto error` path keeps every `sdp_process` mutation). -/
theorem C2_counterexample :
    (janus_nosip_handler_gp {} false msgProcessAudio16 false
      (some "sdes_mandatory") none none envBindAll none none true).2.2 =
      Except.error JANUS_NOSIP_ERROR_TOO_STRICT ∧
    (janus_nosip_handler_gp {} false msgProcessAudio16 false
        (some "sdes_mandatory") none none envBindAll none none
        true).1.media.remote_audio_rtp_port = 16000 ∧
    ({} : Session).media.remote_audio_rtp_port = 0 :=
  ⟨rfl, rfl, rfl⟩

/-- C2 amended: only the errors raised by the validation prefix (missing
or invalid SDP/type, `m=application`, `e2ee`, invalid `srtp` value)
leave the session state untouched: the handler then returns the session
exactly as it received it.  (Errors raised later — such as TOO_STRICT
on `process` — keep the mutations made up to that point, see the
counterexample.) -/
theorem C2_validation_error_no_mutation (s : Session) (generate : Bool)
    (msg : SdpMsg) (e2ee : Bool) (srtpReq srtpProfileReq : Option String)
    (sim : Option SimulcastSsrcs) (env : AllocEnv)
    (sdpIp localIp : Option String) (threadOk : Bool) (e : Nat)
    (h : gpValidate s.media.ready generate msg e2ee srtpReq =
      Except.error e) :
    janus_nosip_handler_gp s generate msg e2ee srtpReq srtpProfileReq sim
      env sdpIp localIp threadOk = (s, env, Except.error e) := by
  unfold janus_nosip_handler_gp
  rw [h]

/-- Witness for C2's amended statement: a request without any SDP fails
validation with MISSING_SDP and returns the fresh session unchanged. -/
theorem C2_validation_error_no_mutation_witness :
    gpValidate ({} : Session).media.ready true { present := false } false
      none = Except.error JANUS_NOSIP_ERROR_MISSING_SDP ∧
    janus_nosip_handler_gp {} true { present := false } false none none
      none envBindAll none none true =
      ({}, envBindAll, Except.error JANUS_NOSIP_ERROR_MISSING_SDP) :=
  ⟨rfl, C2_validation_error_no_mutation {} true { present := false } false
    none none none envBindAll none none true
    JANUS_NOSIP_ERROR_MISSING_SDP rfl⟩

/-! ## C1: the TOO_STRICT policy -/

/-- C1 counterexample: a `process` request with `srtp:"sdes_mandatory"`
whose description has a single zero-port audio section, on a session
whose `require_srtp` is already set and with no remote SRTP, fails with
INVALID_SDP (447), not TOO_STRICT (450): the negotiated-media check
comes first (line 1585). -/
theorem C1_counterexample :
    sessRequireSrtp.media.require_srtp = true ∧
    sessRequireSrtp.media.has_srtp_remote = false ∧
    (janus_nosip_handler_gp sessRequireSrtp false msgProcessAudioZero false
      (some "sdes_mandatory") none none envBindAll none none true).2.2 =
      Except.error JANUS_NOSIP_ERROR_INVALID_SDP ∧
    JANUS_NOSIP_ERROR_INVALID_SDP ≠ JANUS_NOSIP_ERROR_TOO_STRICT :=
  ⟨rfl, rfl, rfl, by decide⟩

/-- C1 amended: (a) a `generate` request whose attached description is
an answer, with mandatory SRTP requested and no remote SRTP installed,
fails with TOO_STRICT right after committing `require_srtp`; (b) a
`process` whose description leaves `require_srtp` set without a valid
remote crypto never succeeds, and the error is exactly TOO_STRICT when
the description negotiated a medium and supplied a remote address
(otherwise the earlier INVALID_SDP checks fire, lines 1585-1598). -/
theorem C1_require_srtp_too_strict (s : Session) (msg : SdpMsg)
    (e2ee : Bool) (srtpReq srtpProfileReq : Option String)
    (sim : Option SimulcastSsrcs) (env : AllocEnv)
    (sdpIp localIp : Option String) (threadOk : Bool) (c : GPChecked)
    (sdp : JanusSdp) :
    (gpValidate s.media.ready true msg e2ee srtpReq = Except.ok c →
      c.offer = false → c.require_srtp = true →
      s.media.has_srtp_remote = false →
      janus_nosip_handler_gp s true msg e2ee srtpReq srtpProfileReq sim
          env sdpIp localIp threadOk =
        ({ s with media := { s.media with require_srtp := true } }, env,
          Except.error JANUS_NOSIP_ERROR_TOO_STRICT)) ∧
    ((janus_nosip_sdp_process s.media sdp (!c.offer)
        c.sdp_update).1.require_srtp = true →
      (janus_nosip_sdp_process s.media sdp (!c.offer)
        c.sdp_update).1.has_srtp_remote = false →
      (∀ res : GPResult, (gpProcess s c sdp).2 ≠ Except.ok res) ∧
      (((janus_nosip_sdp_process s.media sdp (!c.offer)
          c.sdp_update).1.has_audio = true ∨
        (janus_nosip_sdp_process s.media sdp (!c.offer)
          c.sdp_update).1.has_video = true) →
       ¬((janus_nosip_sdp_process s.media sdp (!c.offer)
            c.sdp_update).1.remote_audio_ip = none ∧
         (janus_nosip_sdp_process s.media sdp (!c.offer)
            c.sdp_update).1.remote_video_ip = none) →
       gpProcess s c sdp =
         ({ s with media := (janus_nosip_sdp_process s.media sdp
              (!c.offer) c.sdp_update).1 },
          Except.error JANUS_NOSIP_ERROR_TOO_STRICT))) := by
  constructor
  · intro hv hco hcr hrem
    have hss : gpSrtpState s true c srtpProfileReq msg =
        ({ s with media := { s.media with require_srtp := true } },
          Except.error JANUS_NOSIP_ERROR_TOO_STRICT) := by
      unfold gpSrtpState
      rw [hco]
      simp only [Bool.false_eq_true, false_and, if_false, hcr, hrem,
        not_false_eq_true, true_and, and_true, if_true]
    unfold janus_nosip_handler_gp
    rw [hv]
    dsimp only
    rw [hss]
  · intro hreq hrem
    constructor
    · intro res
      unfold gpProcess
      dsimp only
      by_cases hA : ¬((janus_nosip_sdp_process s.media sdp (!c.offer)
            c.sdp_update).1.has_audio = true) ∧
          ¬((janus_nosip_sdp_process s.media sdp (!c.offer)
            c.sdp_update).1.has_video = true)
      · rw [if_pos hA]
        simp
      · rw [if_neg hA]
        by_cases hB : (janus_nosip_sdp_process s.media sdp (!c.offer)
            c.sdp_update).1.remote_audio_ip = none ∧
          (janus_nosip_sdp_process s.media sdp (!c.offer)
            c.sdp_update).1.remote_video_ip = none
        · rw [if_pos hB]
          simp
        · rw [if_neg hB, if_pos ⟨hreq, by simp [hrem]⟩]
          simp
    · intro hmedia hip
      unfold gpProcess
      dsimp only
      have hA : ¬(¬((janus_nosip_sdp_process s.media sdp (!c.offer)
            c.sdp_update).1.has_audio = true) ∧
          ¬((janus_nosip_sdp_process s.media sdp (!c.offer)
            c.sdp_update).1.has_video = true)) := by
        rcases hmedia with ha | hv2
        · intro hcon
          exact hcon.1 ha
        · intro hcon
          exact hcon.2 hv2
      rw [if_neg hA, if_neg hip, if_pos ⟨hreq, by simp [hrem]⟩]

/-- Witness for C1's amended statement: part (a) at a fresh session with
a mandatory-SRTP `generate` answer, part (b) at a session that already
requires SRTP processing a plain audio description. -/
theorem C1_require_srtp_too_strict_witness :
    (janus_nosip_handler_gp {} true msgGenerateAnswer false
        (some "sdes_mandatory") none none envBindAll none none true =
      ({ ({} : Session) with
          media := { ({} : Session).media with require_srtp := true } },
        envBindAll, Except.error JANUS_NOSIP_ERROR_TOO_STRICT)) ∧
    (gpProcess sessRequireSrtp ⟨false, false, true, true⟩ sdpAudio16).2 =
      Except.error JANUS_NOSIP_ERROR_TOO_STRICT := by
  have h1 := C1_require_srtp_too_strict {} msgGenerateAnswer false
    (some "sdes_mandatory") none none envBindAll none none true
    ⟨false, false, true, true⟩ sdpAudio16
  have h2 := C1_require_srtp_too_strict sessRequireSrtp msgGenerateAnswer
    false (some "sdes_mandatory") none none envBindAll none none true
    ⟨false, false, true, true⟩ sdpAudio16
  refine ⟨h1.1 (by rfl) rfl rfl rfl, ?_⟩
  have h3 := (h2.2 (by rfl) (by rfl)).2 (Or.inl (by rfl)) (by decide)
  rw [h3]

/-! ## C3 and C4: the port-pair allocation loop -/

theorem allocInv_eqFields {rmin rmax start : Nat} {st st1 : AllocSt}
    (hn : st1.next = st.next) (hw : st1.wrap = st.wrap)
    (ha : st1.attempts = st.attempts)
    (h : allocInv rmin rmax start st) : allocInv rmin rmax start st1 := by
  unfold allocInv at h ⊢
  rw [hn, hw, ha]
  exact h

theorem allocInv_step (rmin rmax start : Nat)
    (hrmin2 : rmin % 2 = 0) (hstart2 : start % 2 = 0)
    (hms : rmin ≤ start) (hsx : start < rmax)
    (st : AllocSt) (hinv : allocInv rmin rmax start st)
    (hg : ¬(st.wrap = true ∧ st.next ≥ start))
    (rf cf : Option Nat) (fr : Nat) (ev : List AllocEvent) :
    allocInv rmin rmax start
      { next := if st.next + 2 < rmax then st.next + 2 else rmin,
        wrap := if st.next + 2 < rmax then st.wrap else true,
        rtpFd := rf, rtcpFd := cf, fresh := fr,
        attempts := st.attempts ++ [st.next], events := ev } ∧
    allocMeasure rmax start
      { next := if st.next + 2 < rmax then st.next + 2 else rmin,
        wrap := if st.next + 2 < rmax then st.wrap else true,
        rtpFd := rf, rtcpFd := cf, fresh := fr,
        attempts := st.attempts ++ [st.next], events := ev } <
      allocMeasure rmax start st := by
  obtain ⟨hA, hB⟩ := hinv
  cases hwrap : st.wrap with
  | false =>
    obtain ⟨k, hk1, hk2, hk3⟩ := hA hwrap
    by_cases hadv : st.next + 2 < rmax
    · constructor
      · constructor
        · intro _
          refine ⟨k + 1, ?_, ?_, ?_⟩
          · show (if st.next + 2 < rmax then st.next + 2 else rmin) = _
            rw [if_pos hadv, hk1]
            ring
          · show (if st.next + 2 < rmax then st.next + 2 else rmin) < rmax
            rw [if_pos hadv]
            exact hadv
          · show st.attempts ++ [st.next] = _
            rw [hk3, hk1, List.range'_concat]
        · intro hwt
          exfalso
          have h5 : (if st.next + 2 < rmax then false else true) = true := hwt
          rw [if_pos hadv] at h5
          exact absurd h5 (by simp)
      · unfold allocMeasure
        dsimp only
        rw [if_pos hadv, if_pos hadv, hwrap]
        simp only [Bool.false_eq_true, if_false]
        omega
    · constructor
      · constructor
        · intro hwf
          exfalso
          have h5 : (if st.next + 2 < rmax then false else true) = false := hwf
          rw [if_neg hadv] at h5
          exact absurd h5 (by simp)
        · intro _
          refine ⟨k + 1, 0, ?_, ?_, ?_, ?_⟩
          · show st.attempts ++ [st.next] = _
            rw [hk3, hk1, List.range'_concat]
            simp
          · omega
          · show (if st.next + 2 < rmax then st.next + 2 else rmin) = _
            rw [if_neg hadv]
            omega
          · show (if st.next + 2 < rmax then st.next + 2 else rmin) ≤ start
            rw [if_neg hadv]
            exact hms
      · unfold allocMeasure
        dsimp only
        rw [if_neg hadv, if_neg hadv, hwrap]
        simp only [Bool.false_eq_true, if_false, if_true]
        omega
  | true =>
    have hlt : st.next < start := by
      by_contra hcon
      exact hg ⟨hwrap, by omega⟩
    obtain ⟨k1, k2, hB1, hB2, hB3, hB4⟩ := hB hwrap
    have hadv : st.next + 2 < rmax := by omega
    constructor
    · constructor
      · intro hwf
        exfalso
        have h5 : (if st.next + 2 < rmax then true else true) = false := hwf
        rw [if_pos hadv] at h5
        exact absurd h5 (by simp)
      · intro _
        refine ⟨k1, k2 + 1, ?_, hB2, ?_, ?_⟩
        · show st.attempts ++ [st.next] = _
          rw [hB1, hB3, List.append_assoc, List.range'_concat]
        · show (if st.next + 2 < rmax then st.next + 2 else rmin) = _
          rw [if_pos hadv, hB3]
          ring
        · show (if st.next + 2 < rmax then st.next + 2 else rmin) ≤ start
          rw [if_pos hadv]
          omega
    · unfold allocMeasure
      dsimp only
      rw [if_pos hadv, if_pos hadv, hwrap]
      simp only [if_true]
      omega

theorem allocInv_nodup (rmin rmax start : Nat) (st : AllocSt)
    (hinv : allocInv rmin rmax start st) : st.attempts.Nodup := by
  obtain ⟨hA, hB⟩ := hinv
  cases hw : st.wrap with
  | false =>
    obtain ⟨k, _, _, hk3⟩ := hA hw
    rw [hk3]
    exact List.nodup_range' _ _ _ (by norm_num)
  | true =>
    obtain ⟨k1, k2, hB1, hB2, hB3, hB4⟩ := hB hw
    rw [hB1]
    refine List.Nodup.append (List.nodup_range' _ _ _ (by norm_num))
      (List.nodup_range' _ _ _ (by norm_num)) ?_
    rw [List.disjoint_left]
    intro a ha hb
    rw [List.mem_range'] at ha hb
    obtain ⟨i, hi, hia⟩ := ha
    obtain ⟨j, hj, hja⟩ := hb
    omega

theorem allocInv_coverage (rmin rmax start : Nat)
    (hrmin2 : rmin % 2 = 0) (hstart2 : start % 2 = 0) (st : AllocSt)
    (hinv : allocInv rmin rmax start st) (hw : st.wrap = true)
    (hns : start ≤ st.next) :
    ∀ p, rmin ≤ p → p < rmax → p % 2 = 0 → p ∈ st.attempts := by
  obtain ⟨_, hB⟩ := hinv
  obtain ⟨k1, k2, hB1, hB2, hB3, hB4⟩ := hB hw
  intro p hp1 hp2 hp3
  rw [hB1, List.mem_append]
  by_cases hps : start ≤ p
  · left
    rw [List.mem_range']
    exact ⟨(p - start) / 2, by omega, by omega⟩
  · right
    rw [List.mem_range']
    exact ⟨(p - rmin) / 2, by omega, by omega⟩

theorem allocLoop_sound (bind sock : Nat → Bool) (rmin rmax start : Nat)
    (hrmin2 : rmin % 2 = 0) (hstart2 : start % 2 = 0)
    (hms : rmin ≤ start) (hsx : start < rmax) :
    ∀ (fuel : Nat) (st : AllocSt), allocInv rmin rmax start st →
      allocMeasure rmax start st ≤ fuel →
      ((allocLoop bind sock rmin rmax start fuel st).1 ≠
        AllocOutcome.outOfFuel) ∧
      allocInv rmin rmax start (allocLoop bind sock rmin rmax start fuel st).2 ∧
      (∀ f0 f1 p0 p1, (allocLoop bind sock rmin rmax start fuel st).1 =
          AllocOutcome.ok f0 f1 p0 p1 → p0 % 2 = 0 ∧ p1 = p0 + 1) ∧
      ((allocLoop bind sock rmin rmax start fuel st).1 =
          AllocOutcome.exhausted →
        (allocLoop bind sock rmin rmax start fuel st).2.wrap = true ∧
        start ≤ (allocLoop bind sock rmin rmax start fuel st).2.next) := by
  intro fuel
  induction fuel with
  | zero =>
    intro st hinv hm
    exfalso
    unfold allocMeasure at hm
    split at hm <;> omega
  | succ fuel ih =>
    intro st hinv hm
    have hnx : st.next % 2 = 0 := by
      obtain ⟨hA, hB⟩ := hinv
      cases hwrap : st.wrap with
      | false =>
        obtain ⟨k, hk1, _, _⟩ := hA hwrap
        omega
      | true =>
        obtain ⟨k1, k2, _, _, hk3, _⟩ := hB hwrap
        omega
    by_cases hg : st.wrap = true ∧ st.next ≥ start
    · have he : allocLoop bind sock rmin rmax start (fuel + 1) st =
          (.exhausted, st) := by
        simp only [allocLoop]
        rw [if_pos hg]
      rw [he]
      refine ⟨by simp, hinv, ?_, ?_⟩
      · intro f0 f1 p0 p1 h
        exact absurd h (by simp)
      · intro _
        exact ⟨hg.1, hg.2⟩
    · simp only [allocLoop]
      rw [if_neg hg]
      by_cases hs : (st.rtpFd.isSome || sock st.fresh) = false ∨
          (st.rtcpFd.isSome || sock (if st.rtpFd.isSome then st.fresh
            else if sock st.fresh then st.fresh + 1 else st.fresh)) = false
      · rw [if_pos hs]
        refine ⟨by simp, allocInv_eqFields rfl rfl rfl hinv, ?_, ?_⟩
        · intro f0 f1 p0 p1 h
          exact absurd h (by simp)
        · intro h
          exact absurd h (by simp)
      · rw [if_neg hs]
        by_cases hb1 : bind st.next = true
        · rw [if_neg (not_not_intro hb1)]
          by_cases hb2 : bind (st.next + 1) = true
          · rw [if_neg (not_not_intro hb2)]
            obtain ⟨hinv2, hlt⟩ := allocInv_step rmin rmax start hrmin2
              hstart2 hms hsx st hinv hg _ _ _ _
            refine ⟨by simp, hinv2, ?_, ?_⟩
            · intro f0 f1 p0 p1 h
              injection h with h1 h2 h3 h4
              subst h3 h4
              exact ⟨hnx, rfl⟩
            · intro h
              exact absurd h (by simp)
          · rw [if_pos hb2]
            obtain ⟨hinv2, hlt⟩ := allocInv_step rmin rmax start hrmin2
              hstart2 hms hsx st hinv hg _ _ _ _
            exact ih _ hinv2 (by omega)
        · rw [if_pos hb1]
          obtain ⟨hinv2, hlt⟩ := allocInv_step rmin rmax start hrmin2
            hstart2 hms hsx st hinv hg _ _ _ _
          exact ih _ hinv2 (by omega)

/-- C3 amended: under the invariants the plugin init establishes for the
port range (`rtp_range_min` even, the slider even and inside the range,
lines 785-801), a port-pair allocation never runs out of fuel; on
success the RTP port is even and the RTCP port is the RTP port plus
one; no candidate RTP port is attempted twice in one call; and the
bind-exhaustion failure (the full-range-scanned break, lines 2122-2126)
occurs only with the wrap flag set and the cursor back at (or past) its
starting point, by which time every even port of the configured range
has been attempted.  The allocator can, however, also fail without any
wrap when socket creation fails (the break at lines 2159-2162) — see
the counterexample. -/
theorem C3_port_pair_allocation (env : AllocEnv)
    (h1 : env.rtp_range_min % 2 = 0) (h2 : env.slider % 2 = 0)
    (h3 : env.rtp_range_min ≤ env.slider)
    (h4 : env.slider < env.rtp_range_max) :
    ((janus_nosip_allocate_port_pair env).1 ≠ AllocOutcome.outOfFuel) ∧
    (∀ f0 f1 p0 p1, (janus_nosip_allocate_port_pair env).1 =
        AllocOutcome.ok f0 f1 p0 p1 → p0 % 2 = 0 ∧ p1 = p0 + 1) ∧
    (janus_nosip_allocate_port_pair env).2.1.attempts.Nodup ∧
    ((janus_nosip_allocate_port_pair env).1 = AllocOutcome.exhausted →
      (janus_nosip_allocate_port_pair env).2.1.wrap = true ∧
      env.slider ≤ (janus_nosip_allocate_port_pair env).2.1.next ∧
      ∀ p, env.rtp_range_min ≤ p → p < env.rtp_range_max → p % 2 = 0 →
        p ∈ (janus_nosip_allocate_port_pair env).2.1.attempts) := by
  have h0 : allocInv env.rtp_range_min env.rtp_range_max env.slider
      { next := env.slider, wrap := false, fresh := env.fresh } := by
    constructor
    · intro _
      exact ⟨0, by simp, h4, rfl⟩
    · intro hw
      exact absurd hw (by simp)
  have hm0 : allocMeasure env.rtp_range_max env.slider
      { next := env.slider, wrap := false, fresh := env.fresh } ≤
      env.rtp_range_max + 4 := by
    unfold allocMeasure
    simp only [Bool.false_eq_true, if_false]
    omega
  have hs := allocLoop_sound env.bind env.sock env.rtp_range_min
    env.rtp_range_max env.slider h1 h2 h3 h4 (env.rtp_range_max + 4)
    { next := env.slider, wrap := false, fresh := env.fresh } h0 hm0
  unfold janus_nosip_allocate_port_pair
  dsimp only
  rcases hr : allocLoop env.bind env.sock env.rtp_range_min
      env.rtp_range_max env.slider (env.rtp_range_max + 4)
      { next := env.slider, wrap := false, fresh := env.fresh }
    with ⟨out, stf⟩
  rw [hr] at hs
  dsimp only at hs ⊢
  obtain ⟨hs1, hs2, hs3, hs4⟩ := hs
  cases out with
  | ok f0 f1 p0 p1 =>
    dsimp only
    refine ⟨by simp, ?_, allocInv_nodup _ _ _ _ hs2, ?_⟩
    · intro g0 g1 q0 q1 h
      exact hs3 g0 g1 q0 q1 h
    · intro h
      exact absurd h (by simp)
  | exhausted =>
    dsimp only
    refine ⟨by simp, ?_, allocInv_nodup _ _ _ _ hs2, ?_⟩
    · intro g0 g1 q0 q1 h
      exact absurd h (by simp)
    · intro _
      obtain ⟨hw, hn⟩ := hs4 rfl
      exact ⟨hw, hn, allocInv_coverage _ _ _ h1 h2 _ hs2 hw hn⟩
  | sockFail =>
    dsimp only
    refine ⟨by simp, ?_, allocInv_nodup _ _ _ _ hs2, ?_⟩
    · intro g0 g1 q0 q1 h
      exact absurd h (by simp)
    · intro h
      exact absurd h (by simp)
  | outOfFuel =>
    exact absurd rfl hs1

/-- C3 counterexample: when `socket(2)` fails, the allocator fails (the
C function returns -1, the same failure the caller sees on exhaustion)
on its very first iteration via the break at lines 2159-2162, with the
wrap flag never set and no port pair attempted.  This refutes "the call
fails only after the cursor has wrapped around the configured range and
returned to its starting point". -/
theorem C3_counterexample :
    (janus_nosip_allocate_port_pair envSockFail).1 = AllocOutcome.sockFail ∧
    (janus_nosip_allocate_port_pair envSockFail).2.1.wrap = false ∧
    (janus_nosip_allocate_port_pair envSockFail).2.1.attempts = [] :=
  ⟨rfl, rfl, rfl⟩

/-- Witness for C3's amended statement at a concrete environment where
every socket call and bind succeeds: the call returns the first pair
10000/10001 and its trace is duplicate-free. -/
theorem C3_port_pair_allocation_witness :
    (10000 % 2 = 0 ∧ 10001 = 10000 + 1) ∧
    (janus_nosip_allocate_port_pair envBindAll).2.1.attempts.Nodup ∧
    (janus_nosip_allocate_port_pair envBindAll).1 ≠ AllocOutcome.outOfFuel := by
  have h := C3_port_pair_allocation envBindAll (by decide) (by decide)
    (by decide) (by decide)
  exact ⟨h.2.1 0 1 10000 10001 (by rfl), h.2.2.1, h.1⟩

theorem allocLoop_events (bind sock : Nat → Bool) (rmin rmax start : Nat) :
    ∀ (fuel : Nat) (st : AllocSt),
      (∀ e ∈ st.events, allocEventOk e) →
      List.Chain' allocReuse st.events →
      allocLastCompat st →
      (∀ e ∈ (allocLoop bind sock rmin rmax start fuel st).2.events,
        allocEventOk e) ∧
      List.Chain' allocReuse
        (allocLoop bind sock rmin rmax start fuel st).2.events := by
  intro fuel
  induction fuel with
  | zero =>
    intro st hok hch _
    exact ⟨hok, hch⟩
  | succ fuel ih =>
    intro st hok hch hlast
    by_cases hg : st.wrap = true ∧ st.next ≥ start
    · have he : allocLoop bind sock rmin rmax start (fuel + 1) st =
          (.exhausted, st) := by
        simp only [allocLoop]
        rw [if_pos hg]
      rw [he]
      exact ⟨hok, hch⟩
    · simp only [allocLoop]
      rw [if_neg hg]
      by_cases hs : (st.rtpFd.isSome || sock st.fresh) = false ∨
          (st.rtcpFd.isSome || sock (if st.rtpFd.isSome then st.fresh
            else if sock st.fresh then st.fresh + 1 else st.fresh)) = false
      · rw [if_pos hs]
        exact ⟨hok, hch⟩
      · rw [if_neg hs]
        by_cases hb1 : bind st.next = true
        · rw [if_neg (not_not_intro hb1)]
          by_cases hb2 : bind (st.next + 1) = true
          · rw [if_neg (not_not_intro hb2)]
            dsimp only
            constructor
            · intro e he
              rw [List.mem_append] at he
              rcases he with he | he
              · exact hok e he
              · rw [List.mem_singleton] at he
                subst he
                exact ⟨by intro h; exact absurd h (by simp),
                  by intro _ h; exact absurd h (by simp)⟩
            · rw [List.chain'_append]
              refine ⟨hch, List.chain'_singleton _, ?_⟩
              intro x hx y hy
              rw [List.head?_cons, Option.mem_some_iff] at hy
              subst hy
              obtain ⟨hc1, hc2⟩ := hlast x hx
              constructor
              · intro hxf
                obtain ⟨hr, hc⟩ := hc1 hxf
                constructor
                · show (st.rtpFd.getD st.fresh) = x.rtpFd
                  rw [hr]
                  rfl
                · show (st.rtcpFd.getD _) = x.rtcpFd
                  rw [hc]
                  rfl
              · intro hxt hxc
                obtain ⟨hr, hc⟩ := hc2 hxt hxc
                show (st.rtcpFd.getD _) = x.rtcpFd
                rw [hc]
                rfl
          · rw [if_pos hb2]
            refine ih _ ?_ ?_ ?_
            · intro e he
              rw [List.mem_append] at he
              rcases he with he | he
              · exact hok e he
              · rw [List.mem_singleton] at he
                subst he
                exact ⟨by intro h; exact absurd h (by simp),
                  by intro _ _; rfl⟩
            · rw [List.chain'_append]
              refine ⟨hch, List.chain'_singleton _, ?_⟩
              intro x hx y hy
              rw [List.head?_cons, Option.mem_some_iff] at hy
              subst hy
              obtain ⟨hc1, hc2⟩ := hlast x hx
              constructor
              · intro hxf
                obtain ⟨hr, hc⟩ := hc1 hxf
                constructor
                · show (st.rtpFd.getD st.fresh) = x.rtpFd
                  rw [hr]
                  rfl
                · show (st.rtcpFd.getD _) = x.rtcpFd
                  rw [hc]
                  rfl
              · intro hxt hxc
                obtain ⟨hr, hc⟩ := hc2 hxt hxc
                show (st.rtcpFd.getD _) = x.rtcpFd
                rw [hc]
                rfl
            · intro e he
              rw [List.getLast?_concat] at he
              rw [Option.some_inj] at he
              subst he
              constructor
              · intro h
                exact absurd h (by simp)
              · intro _ _
                exact ⟨rfl, rfl⟩
        · rw [if_pos hb1]
          refine ih _ ?_ ?_ ?_
          · intro e he
            rw [List.mem_append] at he
            rcases he with he | he
            · exact hok e he
            · rw [List.mem_singleton] at he
              subst he
              exact ⟨by intro _; exact ⟨rfl, rfl⟩,
                by intro h; exact absurd h (by simp)⟩
          · rw [List.chain'_append]
            refine ⟨hch, List.chain'_singleton _, ?_⟩
            intro x hx y hy
            rw [List.head?_cons, Option.mem_some_iff] at hy
            subst hy
            obtain ⟨hc1, hc2⟩ := hlast x hx
            constructor
            · intro hxf
              obtain ⟨hr, hc⟩ := hc1 hxf
              constructor
              · show (st.rtpFd.getD st.fresh) = x.rtpFd
                rw [hr]
                rfl
              · show (st.rtcpFd.getD _) = x.rtcpFd
                rw [hc]
                rfl
            · intro hxt hxc
              obtain ⟨hr, hc⟩ := hc2 hxt hxc
              show (st.rtcpFd.getD _) = x.rtcpFd
              rw [hc]
              rfl
          · intro e he
            rw [List.getLast?_concat] at he
            rw [Option.some_inj] at he
            subst he
            constructor
            · intro _
              exact ⟨rfl, rfl⟩
            · intro h
              exact absurd h (by simp)

/-- C4 amended: in every iteration, when the RTP bind fails nothing is
closed and both sockets are kept; when the RTP bind succeeds and the
RTCP bind fails, the socket that is closed is the RTP one — the one
whose bind succeeded — while the RTCP socket, whose bind failed, is the
one kept and reused by the next iteration. -/
theorem C4_close_keeps_bound_socket (env : AllocEnv) :
    (∀ e ∈ (janus_nosip_allocate_port_pair env).2.1.events, allocEventOk e) ∧
    List.Chain' allocReuse (janus_nosip_allocate_port_pair env).2.1.events := by
  have h := allocLoop_events env.bind env.sock env.rtp_range_min
    env.rtp_range_max env.slider (env.rtp_range_max + 4)
    { next := env.slider, wrap := false, fresh := env.fresh }
    (by intro e he; exact absurd he (List.not_mem_nil e))
    List.chain'_nil
    (by intro e he; exact absurd he (by simp))
  unfold janus_nosip_allocate_port_pair
  dsimp only
  rcases hr : allocLoop env.bind env.sock env.rtp_range_min
      env.rtp_range_max env.slider (env.rtp_range_max + 4)
      { next := env.slider, wrap := false, fresh := env.fresh }
    with ⟨out, stf⟩
  rw [hr] at h
  dsimp only at h ⊢
  cases out with
  | ok f0 f1 p0 p1 => exact h
  | exhausted => exact h
  | sockFail => exact h
  | outOfFuel => exact h

/-- C4 counterexample: with only port 10001 busy, the first iteration
binds RTP on 10000 successfully (`rtpBindOk = true`), fails the RTCP
bind, and closes descriptor 0 — the successfully bound RTP socket —
while keeping descriptor 1 whose bind failed (reused in the successful
second iteration).  This refutes "close only the socket that failed to
bind". -/
theorem C4_counterexample :
    (janus_nosip_allocate_port_pair envRtcpBusy).2.1.events.head? =
      some ⟨0, 1, 10000, true, some false, some 0⟩ ∧
    (janus_nosip_allocate_port_pair envRtcpBusy).1 =
      AllocOutcome.ok 2 1 10002 10003 :=
  ⟨rfl, rfl⟩

/-- Witness for C4's amended statement at the concrete busy-RTCP
environment: the first iteration's event (RTP bound, RTCP failed)
satisfies the per-iteration closing discipline, with the closed
descriptor the RTP one. -/
theorem C4_close_keeps_bound_socket_witness :
    allocEventOk ⟨0, 1, 10000, true, some false, some 0⟩ := by
  have h := C4_close_keeps_bound_socket envRtcpBusy
  exact h.1 ⟨0, 1, 10000, true, some false, some 0⟩ (by decide)
end NoSip
